import Mathlib

/-!
# ShotComposer: the cinematography engine

A shallow embedding of `src/utils/cinematography.js` (shot, angle, depth, facing and pose
classification, and prompt synthesis) together with the entity and camera records and the
reducer of `src/context/SceneContext.jsx`, the handlers of `src/components/EntityManager.jsx`
and the per-frame camera update of `src/hooks/useKeyboardControls.js`.

JavaScript numbers are modelled by exact numbers: the threshold functions are written over an
arbitrary linear ordered field (so they run on `ℚ` and are stated on `ℝ`), the trigonometric ones
over `ℝ`.  `NaN`, infinities and the signed zero of IEEE doubles are outside the model, and so is
rounding error, with one exception: `describeDepth` compares a difference of two coordinates with
the integers 3 and 8, and for coordinates a tenth apart, as the position sliders give them, the
rounding of the operands and of the difference decides the bucket.  Its subtraction is therefore
the one of IEEE doubles (`toDouble`).

`String.prototype.toLowerCase` follows the Unicode tables of the engine and is a parameter of the
model (`CaseMapping`), known on ASCII text.
-/

namespace ShotComposer

/-! ## Data model -/

/-- A three-element array `[x, y, z]`; index 0 is `x`, index 1 is `y`, index 2 is `z`. -/
structure Vec3 (α : Type) where
  x : α
  y : α
  z : α
deriving DecidableEq

/-- The `directorCamera` record of the scene state. -/
structure Camera (α : Type) where
  position : Vec3 α
  rotation : Vec3 α
  fov : α
deriving DecidableEq

/-- The joint angles of one body part, a record from angle name to degrees. -/
abbrev JointAngles (α : Type) := List (String × α)

/-- A pose: a record from body-part key to its joint angles.  Absent keys are allowed. -/
abbrev Pose (α : Type) := List (String × JointAngles α)

/-- The `dimensions` record of a volume. -/
structure Dimensions (α : Type) where
  width : α
  height : α
  depth : α
deriving DecidableEq

/-- A scene entity as the store holds it: a loosely typed record whose optional fields may be
absent.  `handleAddHuman` supplies `rotation` and `pose`; `handleAddVolume` supplies `shape`,
`dimensions`, `showBeak` and `facing` and no `rotation`. -/
structure Entity (α : Type) where
  id : Nat
  type : String
  label : Option String
  position : Vec3 α
  rotation : Option (Vec3 α)
  pose : Option (Pose α)
  shape : Option String
  dimensions : Option (Dimensions α)
  showBeak : Option Bool
  facing : Option α

/-- The root record of the store. -/
structure SceneState (α : Type) where
  entities : List (Entity α)
  selectedEntityId : Option Nat
  directorCamera : Camera α

/-- The result record of `generatePrompt`. -/
structure PromptData where
  shotType : String
  angle : String
  focalLength : Int
  entities : List String
  full : String
deriving DecidableEq

/-! ## JavaScript primitives used by the engine -/

section Generic

variable {α : Type} [LinearOrderedField α]

/-- The idiom `v || 0` on an optional number: `undefined` and `0` both give `0`. -/
def orZero (v : Option α) : α :=
  match v with
  | none => 0
  | some x => if x = 0 then 0 else x

/-- The idiom `s || d` on an optional string: `undefined` and `""` both give `d`. -/
def orDefault (s : Option String) (d : String) : String :=
  match s with
  | none => d
  | some t => if t = "" then d else t

/-- The case mapping of the JavaScript engine.  `String.prototype.toLowerCase` converts by the
Unicode tables of the engine that runs the page; they are no part of this repository and differ
between engine versions, so the mapping is a parameter of the model.  The one property assumed of
it is its action on ASCII text, which every version shares: the letters `A` to `Z` go to `a` to
`z` and every other ASCII character stays as it is. -/
class CaseMapping where
  /-- The engine's lower-casing of a string. -/
  lower : String → String
  /-- On a string of ASCII characters the mapping acts character by character. -/
  lower_ascii : ∀ s : String, (∀ c ∈ s.data, c.val < 128) →
    lower s = String.mk (s.data.map Char.toLower)

/-- `String.prototype.toLowerCase`. -/
def toLowerCase [CaseMapping] (s : String) : String :=
  CaseMapping.lower s

/-- The case mapping that lower-cases the ASCII letters and leaves every other character.  Every
case mapping agrees with it on ASCII text. -/
def asciiCaseMapping : CaseMapping where
  lower s := String.mk (s.data.map Char.toLower)
  lower_ascii _ _ := rfl

/-- The optional chain `pose.part?.angle`. -/
def poseAngle (pose : Pose α) (part angle : String) : Option α :=
  (pose.lookup part).bind (fun joints => joints.lookup angle)

/-- `Array.prototype.sort` with a comparator.  The language standard requires the sort to be
stable, so for a consistent comparator the result is the stable sort: every element is inserted in
front of the first element it does not exceed, equal elements keeping their input order. -/
def jsSort {β : Type} (compareFn : β → β → Int) (l : List β) : List β :=
  l.insertionSort (fun a b => compareFn a b ≤ 0)

/-- The store's state at start-up (`initialState` in `SceneContext.jsx`). -/
def initialState : SceneState α :=
  { entities := []
    selectedEntityId := none
    directorCamera := { position := ⟨0, 1.6, 5⟩, rotation := ⟨0, 0, 0⟩, fov := 50 } }

/-! ## Classification functions -/

/-- Shot type from the field of view in degrees. -/
def classifyShot (fov : α) : String :=
  if fov < 25 then "extreme close-up"
  else if fov < 35 then "close-up"
  else if fov < 50 then "medium close-up"
  else if fov < 65 then "medium shot"
  else if fov < 80 then "medium wide shot"
  else if fov < 100 then "wide shot"
  else "extreme wide shot"

/-- Camera angle from the camera height relative to `targetY`. -/
def classifyAngle (cameraY targetY : α) : String :=
  let diff := cameraY - targetY
  if diff > 2 then "bird's eye view"
  else if diff > 0.5 then "high angle"
  else if diff < -2 then "worm's eye view"
  else if diff < -0.5 then "low angle"
  else "eye level"

/-- The default value of `classifyAngle`'s second parameter. -/
def defaultTargetY : α := 1.6

/-- The integer nearest to `x`, and the even one of the two when `x` lies half-way between
two integers. -/
def roundHalfEven [FloorRing α] (x : α) : ℤ :=
  let f := ⌊x⌋
  if x - f < 1 / 2 then f
  else if 1 / 2 < x - f then f + 1
  else if f % 2 = 0 then f
  else f + 1

/-- The IEEE 754 double nearest to `x`, a tie going to the even significand: the value a
JavaScript number holds for `x`, and the result of an arithmetic operation whose exact result is
`x`.  The doubles with `2 ^ e ≤ |x| < 2 ^ (e + 1)` are the multiples of `2 ^ (e - 52)`, and those
below `2 ^ (-1022)` are the multiples of `2 ^ (-1074)`.  Overflow to an infinity is outside the
model. -/
def toDouble [FloorRing α] (x : α) : α :=
  let e := max (Int.log 2 |x|) (-1022)
  let ulp : α := 2 ^ (e - 52)
  roundHalfEven (x / ulp) * ulp

/-- Depth bucket from the distance along Z between entity and camera.  The two arguments are
JavaScript numbers: a number stands for the double nearest to it (itself, when it is a double),
and `entityZ - cameraZ` is the subtraction of doubles, the exact difference rounded to the nearest
double.  `Math.abs` and the comparisons with 3 and 8 are exact on doubles. -/
def describeDepth [FloorRing α] (entityZ cameraZ : α) : String :=
  let distance := |toDouble (toDouble entityZ - toDouble cameraZ)|
  if distance < 3 then "foreground"
  else if distance < 8 then "midground"
  else "background"

/-- Pose narration from the joint angles (degrees); an absent pose is `none`.  Each conditional
`descriptions.push(p)` appends the list `[p]` when its condition holds and `[]` otherwise. -/
def describePose (pose : Option (Pose α)) : String :=
  match pose with
  | none => "standing"
  | some pose =>
    let descriptions : List String := []
    -- Check arms
    let leftArmRaised : Bool := orZero (poseAngle pose "l_arm" "raise") > 60
    let rightArmRaised : Bool := orZero (poseAngle pose "r_arm" "raise") > 60
    let leftElbowBent : Bool := orZero (poseAngle pose "l_elbow" "bend") > 90
    let rightElbowBent : Bool := orZero (poseAngle pose "r_elbow" "bend") > 90
    let descriptions := descriptions ++
      (if leftArmRaised && rightArmRaised then ["both arms raised"]
       else if leftArmRaised then ["left arm raised"]
       else if rightArmRaised then ["right arm raised"]
       else [])
    let descriptions := descriptions ++
      (if leftElbowBent || rightElbowBent then ["arm bent at elbow"] else [])
    -- Check legs
    let leftLegRaised : Bool := orZero (poseAngle pose "l_leg" "raise") > 30
    let rightLegRaised : Bool := orZero (poseAngle pose "r_leg" "raise") > 30
    let leftKneeBent : Bool := orZero (poseAngle pose "l_knee" "bend") > 60
    let rightKneeBent : Bool := orZero (poseAngle pose "r_knee" "bend") > 60
    let descriptions := descriptions ++
      (if leftLegRaised || rightLegRaised then ["leg lifted"] else [])
    let descriptions := descriptions ++
      (if leftKneeBent && rightKneeBent then ["crouching"]
       else if leftKneeBent || rightKneeBent then ["knee bent"]
       else [])
    -- Check body
    let bodyBend := orZero (poseAngle pose "body" "bend")
    let descriptions := descriptions ++
      (if |bodyBend| > 20 then [if bodyBend > 0 then "leaning forward" else "leaning back"]
       else [])
    let bodyTurn := orZero (poseAngle pose "body" "turn")
    let descriptions := descriptions ++
      (if |bodyTurn| > 30 then ["torso turned"] else [])
    -- Check head
    let headTurn := orZero (poseAngle pose "head" "turn")
    let descriptions := descriptions ++
      (if |headTurn| > 30 then ["head turned"] else [])
    let headNod := orZero (poseAngle pose "head" "nod")
    let descriptions := descriptions ++
      (if headNod > 20 then ["looking down"]
       else if headNod < -20 then ["looking up"]
       else [])
    if descriptions.length > 0 then ", ".intercalate descriptions else "standing"

/-- The lookup table `depthOrder` of the sort comparator. -/
def depthOrder : List (String × Int) :=
  [("foreground", 0), ("midground", 1), ("background", 2)]

/-- The lookup `depthOrder[depth]`.  `describeDepth` only returns keys of the table, so the
fallback is never taken by `generatePrompt`. -/
def depthRank (depth : String) : Int :=
  (depthOrder.lookup depth).getD 0

/-- The comparator `generatePrompt` passes to `sort`. -/
def compareDepth [FloorRing α] (camera : Camera α) (a b : Entity α) : Int :=
  let depthA := describeDepth a.position.z camera.position.z
  let depthB := describeDepth b.position.z camera.position.z
  depthRank depthA - depthRank depthB

/-- The local `sortedEntities` of `generatePrompt`: a sorted copy of the entity list. -/
def sortedEntities [FloorRing α] (camera : Camera α) (entities : List (Entity α)) :
    List (Entity α) :=
  jsSort (compareDepth camera) entities

end Generic

/-! ## Trigonometric functions -/

/-- `Math.round`: the nearest integer, a half rounding towards positive infinity. -/
noncomputable def mathRound (x : ℝ) : ℤ :=
  ⌊x + 1 / 2⌋

/-- `Math.atan2(y, x)`: the angle in `(-π, π]` of the point `(x, y)`, and 0 at the origin. -/
noncomputable def atan2 (y x : ℝ) : ℝ :=
  Complex.arg ⟨x, y⟩

/-- The default value of `fovToFocalLength`'s second parameter. -/
noncomputable def defaultSensorSize : ℝ := 36

/-- Focal length in millimetres from the field of view in degrees. -/
noncomputable def fovToFocalLength (fov sensorSize : ℝ) : ℤ :=
  mathRound ((sensorSize / 2) / Real.tan ((fov * Real.pi) / 360))

/-- The local `toCameraAngle` of `describeFacing`: the bearing from the entity to the camera. -/
noncomputable def toCameraAngle (cameraPosition entityPosition : Vec3 ℝ) : ℝ :=
  atan2 (cameraPosition.x - entityPosition.x) (cameraPosition.z - entityPosition.z)

/-- The local `angleDiff` of `describeFacing`, after the normalisation step. -/
noncomputable def angleDiff (entityRotationY : ℝ) (cameraPosition entityPosition : Vec3 ℝ) : ℝ :=
  let entityFacing := entityRotationY
  let angleDiff := |toCameraAngle cameraPosition entityPosition - entityFacing|
  if angleDiff > Real.pi then 2 * Real.pi - angleDiff else angleDiff

/-- Facing of an entity relative to the camera. -/
noncomputable def describeFacing (entityRotationY : ℝ) (cameraPosition entityPosition : Vec3 ℝ) :
    String :=
  let angleDiff := angleDiff entityRotationY cameraPosition entityPosition
  if angleDiff < Real.pi / 6 then "facing camera"
  else if angleDiff > Real.pi * 5 / 6 then "facing away"
  else if angleDiff < Real.pi / 2 then "three-quarter view"
  else "profile view"

/-! ## Prompt synthesis -/

/-- The body of the `map` callback in `generatePrompt`: the description of one entity. -/
noncomputable def describeEntity [CaseMapping] (camera : Camera ℝ) (entity : Entity ℝ) :
    String :=
  let depth := describeDepth entity.position.z camera.position.z
  let facing := describeFacing (orZero (entity.rotation.map Vec3.y)) camera.position
    entity.position
  if entity.type = "human" then
    let poseDesc := describePose entity.pose
    let label := orDefault entity.label "person"
    "In the " ++ depth ++ ", " ++ toLowerCase label ++ " " ++ poseDesc ++ ", " ++ facing
  else
    let label := orDefault entity.label "object"
    "In the " ++ depth ++ ", " ++ toLowerCase label ++ " " ++ facing

/-- The cinematographic prompt for a camera and an entity list. -/
noncomputable def generatePrompt [CaseMapping] (camera : Camera ℝ) (entities : List (Entity ℝ)) :
    PromptData :=
  let shotType := classifyShot camera.fov
  let angle := classifyAngle camera.position.y defaultTargetY
  let focalLength := fovToFocalLength camera.fov defaultSensorSize
  let sortedEntities := sortedEntities camera entities
  let entityDescriptions := sortedEntities.map (describeEntity camera)
  let fullPrompt := "A " ++ shotType ++ " from " ++ angle
  let fullPrompt :=
    if entityDescriptions.length > 0 then
      fullPrompt ++ (". " ++ ". ".intercalate entityDescriptions ++ ".")
    else
      fullPrompt ++ ". Empty scene."
  let fullPrompt := fullPrompt ++ (" Shot on " ++ toString focalLength ++
    "mm lens. Cinematic composition, professional lighting, photorealistic.")
  { shotType := shotType
    angle := angle
    focalLength := focalLength
    entities := entityDescriptions
    full := fullPrompt }

/-! ## Entities added by the entity manager -/

/-- The entity that `handleAddHuman` adds when the scene already holds `humanCount` humans, with
the id the store gives it. -/
def addedHuman {α : Type} [LinearOrderedField α] (id humanCount : Nat) : Entity α :=
  { id := id
    type := "human"
    label := some ("Person " ++ toString (humanCount + 1))
    position := ⟨0, 1, 0⟩
    rotation := some ⟨0, 0, 0⟩
    pose := some []
    shape := none
    dimensions := none
    showBeak := none
    facing := none }

/-! ## The description format as the specification words it -/

/-- The yaw the description is computed from: the Y component of the entity's `rotation`, and 0
when the entity has no `rotation`. -/
noncomputable def specYaw (entity : Entity ℝ) : ℝ :=
  match entity.rotation with
  | some rotation => rotation.y
  | none => 0

/-- The label part of a description: the entity's label lower-cased, or "person" for a human
and "object" otherwise when the label is missing or empty. -/
def specLabel [CaseMapping] (entity : Entity ℝ) : String :=
  match entity.label with
  | some label =>
    if label = "" then (if entity.type = "human" then "person" else "object")
    else toLowerCase label
  | none => if entity.type = "human" then "person" else "object"

/-- The description of one entity in the specification's format:
"In the {depth}, {label} {pose}, {facing}" for a human, "In the {depth}, {label} {facing}"
otherwise. -/
noncomputable def specDescription [CaseMapping] (camera : Camera ℝ) (entity : Entity ℝ) :
    String :=
  if entity.type = "human" then
    "In the " ++ describeDepth entity.position.z camera.position.z ++ ", " ++ specLabel entity ++
      " " ++ describePose entity.pose ++ ", " ++
      describeFacing (specYaw entity) camera.position entity.position
  else
    "In the " ++ describeDepth entity.position.z camera.position.z ++ ", " ++ specLabel entity ++
      " " ++ describeFacing (specYaw entity) camera.position entity.position

/-! ## The phrases of a pose -/

/-- The array `descriptions` of `describePose` when the function reaches its `return`: the same
statements as in `describePose`, for a pose that is present. -/
def poseDescriptions {α : Type} [LinearOrderedField α] (pose : Pose α) : List String :=
  let descriptions : List String := []
  -- Check arms
  let leftArmRaised : Bool := orZero (poseAngle pose "l_arm" "raise") > 60
  let rightArmRaised : Bool := orZero (poseAngle pose "r_arm" "raise") > 60
  let leftElbowBent : Bool := orZero (poseAngle pose "l_elbow" "bend") > 90
  let rightElbowBent : Bool := orZero (poseAngle pose "r_elbow" "bend") > 90
  let descriptions := descriptions ++
    (if leftArmRaised && rightArmRaised then ["both arms raised"]
     else if leftArmRaised then ["left arm raised"]
     else if rightArmRaised then ["right arm raised"]
     else [])
  let descriptions := descriptions ++
    (if leftElbowBent || rightElbowBent then ["arm bent at elbow"] else [])
  -- Check legs
  let leftLegRaised : Bool := orZero (poseAngle pose "l_leg" "raise") > 30
  let rightLegRaised : Bool := orZero (poseAngle pose "r_leg" "raise") > 30
  let leftKneeBent : Bool := orZero (poseAngle pose "l_knee" "bend") > 60
  let rightKneeBent : Bool := orZero (poseAngle pose "r_knee" "bend") > 60
  let descriptions := descriptions ++
    (if leftLegRaised || rightLegRaised then ["leg lifted"] else [])
  let descriptions := descriptions ++
    (if leftKneeBent && rightKneeBent then ["crouching"]
     else if leftKneeBent || rightKneeBent then ["knee bent"]
     else [])
  -- Check body
  let bodyBend := orZero (poseAngle pose "body" "bend")
  let descriptions := descriptions ++
    (if |bodyBend| > 20 then [if bodyBend > 0 then "leaning forward" else "leaning back"]
     else [])
  let bodyTurn := orZero (poseAngle pose "body" "turn")
  let descriptions := descriptions ++
    (if |bodyTurn| > 30 then ["torso turned"] else [])
  -- Check head
  let headTurn := orZero (poseAngle pose "head" "turn")
  let descriptions := descriptions ++
    (if |headTurn| > 30 then ["head turned"] else [])
  let headNod := orZero (poseAngle pose "head" "nod")
  let descriptions := descriptions ++
    (if headNod > 20 then ["looking down"]
     else if headNod < -20 then ["looking up"]
     else [])
  descriptions

/-- A joint angle of a pose, an absent joint read as 0: the expression `pose.part?.angle || 0`
that `describePose` compares with its thresholds. -/
def jointAngle {α : Type} [LinearOrderedField α] (pose : Pose α) (part angle : String) : α :=
  orZero (poseAngle pose part angle)

/-- The phrases `describePose` can emit, in the order of its checks. -/
def posePhrases : List String :=
  ["both arms raised", "left arm raised", "right arm raised", "arm bent at elbow", "leg lifted",
    "crouching", "knee bent", "leaning forward", "leaning back", "torso turned", "head turned",
    "looking down", "looking up"]

/-- A pose in which every check of `describePose` fires: both arms at 90, the left elbow at
100, the left leg at 45, both knees at 90, body bend 30 and turn 45, head turn 45 and nod 30. -/
def firingPose {α : Type} [LinearOrderedField α] : Pose α :=
  [("l_arm", [("raise", 90)]), ("r_arm", [("raise", 90)]), ("l_elbow", [("bend", 100)]),
    ("l_leg", [("raise", 45)]), ("l_knee", [("bend", 90)]), ("r_knee", [("bend", 90)]),
    ("body", [("bend", 30), ("turn", 45)]), ("head", [("turn", 45), ("nod", 30)])]

/-! ## Volumes -/

/-- The entity that `handleAddVolume` adds when the scene already holds `volumeCount` volumes,
with the id the store gives it.  It has a `facing` in degrees and no `rotation`. -/
def addedVolume {α : Type} [LinearOrderedField α] (id volumeCount : Nat) : Entity α :=
  { id := id
    type := "volume"
    label := some ("Object " ++ toString (volumeCount + 1))
    position := ⟨2, 0.5, 0⟩
    rotation := none
    pose := none
    shape := some "box"
    dimensions := some ⟨1, 1, 1⟩
    showBeak := some true
    facing := some 0 }

/-- The library function `THREE.MathUtils.degToRad`: degrees times π/180. -/
noncomputable def degToRad (degrees : ℝ) : ℝ :=
  degrees * (Real.pi / 180)

/-- The `rotation` that `GenericVolume` gives the group it renders: a turn about Y by the
volume's `facing` in degrees, 0 when `facing` is absent. -/
noncomputable def volumeRotation (facing : Option ℝ) : Vec3 ℝ :=
  ⟨0, degToRad (facing.getD 0), 0⟩

/-! ## Missing optional fields -/

/-- An entity with its missing optional fields filled in: rotation `[0, 0, 0]` when the entity
has no `rotation`, the empty pose when it has no `pose`. -/
def withDefaults {α : Type} [LinearOrderedField α] (entity : Entity α) : Entity α :=
  { entity with
    rotation := some (entity.rotation.getD ⟨0, 0, 0⟩)
    pose := some (entity.pose.getD []) }

/-! ## The store -/

section Store

variable {α : Type}

/-- An entity without its id: the payload of `ADD_ENTITY`.  The callers, `handleAddHuman` and
`handleAddVolume`, never put an `id` in it. -/
structure EntityPayload (α : Type) where
  type : String
  label : Option String
  position : Vec3 α
  rotation : Option (Vec3 α)
  pose : Option (Pose α)
  shape : Option String
  dimensions : Option (Dimensions α)
  showBeak : Option Bool
  facing : Option α

/-- A record of partial entity fields: the `updates` of `updateEntity`.  A field that is not
supplied is `none`; the id is not among the fields (it is passed separately). -/
structure EntityUpdate (α : Type) where
  type : Option String
  label : Option (Option String)
  position : Option (Vec3 α)
  rotation : Option (Option (Vec3 α))
  pose : Option (Option (Pose α))
  shape : Option (Option String)
  dimensions : Option (Option (Dimensions α))
  showBeak : Option (Option Bool)
  facing : Option (Option α)

/-- A record of partial camera fields: the payload of `UPDATE_CAMERA`. -/
structure CameraUpdate (α : Type) where
  position : Option (Vec3 α)
  rotation : Option (Vec3 α)
  fov : Option α

/-- The actions of `sceneReducer`; `other` is any action type without a case of its own. -/
inductive Action (α : Type) where
  | ADD_ENTITY (payload : EntityPayload α)
  | UPDATE_ENTITY (id : Nat) (fields : EntityUpdate α)
  | REMOVE_ENTITY (payload : Nat)
  | SELECT_ENTITY (payload : Option Nat)
  | UPDATE_CAMERA (payload : CameraUpdate α)
  | other

/-- The record `{ id: Date.now(), ...action.payload }`, for the clock reading `now`. -/
def newEntity (now : Nat) (payload : EntityPayload α) : Entity α :=
  { id := now
    type := payload.type
    label := payload.label
    position := payload.position
    rotation := payload.rotation
    pose := payload.pose
    shape := payload.shape
    dimensions := payload.dimensions
    showBeak := payload.showBeak
    facing := payload.facing }

/-- The record `{ ...e, ...action.payload }` for the payload `{ id, ...updates }`: every supplied
field replaces the entity's field whole. -/
def mergeEntity (e : Entity α) (id : Nat) (fields : EntityUpdate α) : Entity α :=
  { id := id
    type := fields.type.getD e.type
    label := fields.label.getD e.label
    position := fields.position.getD e.position
    rotation := fields.rotation.getD e.rotation
    pose := fields.pose.getD e.pose
    shape := fields.shape.getD e.shape
    dimensions := fields.dimensions.getD e.dimensions
    showBeak := fields.showBeak.getD e.showBeak
    facing := fields.facing.getD e.facing }

/-- The record `{ ...state.directorCamera, ...action.payload }`. -/
def mergeCamera (camera : Camera α) (payload : CameraUpdate α) : Camera α :=
  { position := payload.position.getD camera.position
    rotation := payload.rotation.getD camera.rotation
    fov := payload.fov.getD camera.fov }

/-- The reducer of the store.  `now` is the value `Date.now()` returns during the call. -/
def sceneReducer (now : Nat) (state : SceneState α) (action : Action α) : SceneState α :=
  match action with
  | .ADD_ENTITY payload =>
    { state with entities := state.entities ++ [newEntity now payload] }
  | .UPDATE_ENTITY id fields =>
    { state with
      entities := state.entities.map (fun e => if e.id = id then mergeEntity e id fields else e) }
  | .REMOVE_ENTITY payload =>
    { state with
      entities := state.entities.filter (fun e => decide (e.id ≠ payload))
      selectedEntityId :=
        if state.selectedEntityId = some payload then none else state.selectedEntityId }
  | .SELECT_ENTITY payload =>
    { state with selectedEntityId := payload }
  | .UPDATE_CAMERA payload =>
    { state with directorCamera := mergeCamera state.directorCamera payload }
  | .other => state

/-- The `addEntity` of `useEntities`. -/
def addEntity (now : Nat) (state : SceneState α) (entity : EntityPayload α) : SceneState α :=
  sceneReducer now state (.ADD_ENTITY entity)

/-- The `updateEntity` of `useEntities`. -/
def updateEntity (now : Nat) (state : SceneState α) (id : Nat) (updates : EntityUpdate α) :
    SceneState α :=
  sceneReducer now state (.UPDATE_ENTITY id updates)

/-- The `removeEntity` of `useEntities`. -/
def removeEntity (now : Nat) (state : SceneState α) (id : Nat) : SceneState α :=
  sceneReducer now state (.REMOVE_ENTITY id)

/-- The `selectEntity` of `useEntities`. -/
def selectEntity (now : Nat) (state : SceneState α) (id : Option Nat) : SceneState α :=
  sceneReducer now state (.SELECT_ENTITY id)

/-- The `updateCamera` of `useDirectorCamera`. -/
def updateCamera (now : Nat) (state : SceneState α) (updates : CameraUpdate α) : SceneState α :=
  sceneReducer now state (.UPDATE_CAMERA updates)

/-- The payload `handleAddHuman` builds from the current entities. -/
def humanPayload [LinearOrderedField α] (entities : List (Entity α)) : EntityPayload α :=
  let humanCount := (entities.filter (fun e => decide (e.type = "human"))).length
  { type := "human"
    label := some ("Person " ++ toString (humanCount + 1))
    position := ⟨0, 1, 0⟩
    rotation := some ⟨0, 0, 0⟩
    pose := some []
    shape := none
    dimensions := none
    showBeak := none
    facing := none }

/-- The handler `handleAddHuman` of the entity manager, run at the clock reading `now`. -/
def handleAddHuman [LinearOrderedField α] (now : Nat) (state : SceneState α) : SceneState α :=
  addEntity now state (humanPayload state.entities)

end Store

/-! ## The camera setters -/

section CameraSetters

variable {α : Type}

/-- The `setPosition` of `useDirectorCamera`: `updateCamera({ position })`. -/
def setPosition (now : Nat) (state : SceneState α) (position : Vec3 α) : SceneState α :=
  updateCamera now state { position := some position, rotation := none, fov := none }

/-- The `setRotation` of `useDirectorCamera`: `updateCamera({ rotation })`. -/
def setRotation (now : Nat) (state : SceneState α) (rotation : Vec3 α) : SceneState α :=
  updateCamera now state { position := none, rotation := some rotation, fov := none }

/-- The `setFov` of `useDirectorCamera`: `updateCamera({ fov })`. -/
def setFov (now : Nat) (state : SceneState α) (fov : α) : SceneState α :=
  updateCamera now state { position := none, rotation := none, fov := some fov }

end CameraSetters

/-! ## The keyboard controller -/

/-- Base speed of movement in the horizontal plane. -/
noncomputable def MOVE_SPEED : ℝ := 0.1

/-- Base speed of rotation. -/
noncomputable def ROTATE_SPEED : ℝ := 0.02

/-- Base speed of vertical movement. -/
noncomputable def HEIGHT_SPEED : ℝ := 0.1

/-- Multiplier of the three speeds while Alt is held. -/
noncomputable def FINE_MODIFIER : ℝ := 0.1

/-- What the controller holds between ticks: the focus flag `isActive`, the set `keysPressed`
(lower-cased key names, as a list of its elements) and the flag `altPressed`. -/
structure Controls where
  isActive : Bool
  keysPressed : List String
  altPressed : Bool

/-- The locals `[x, y, z]` and `[rotX, rotY, rotZ]` of the controller's `updateCamera` when it
reaches its two comparisons with the stored pose, for a tick that did not return early. -/
noncomputable def useKeyboardControls.computed (keys : List String) (altPressed : Bool)
    (camera : Camera ℝ) : Vec3 ℝ × Vec3 ℝ :=
  let x := camera.position.x
  let y := camera.position.y
  let z := camera.position.z
  let rotX := camera.rotation.x
  let rotY := camera.rotation.y
  let rotZ := camera.rotation.z
  -- Apply fine modifier if Alt is held
  let speedMod : ℝ := if altPressed then FINE_MODIFIER else 1
  let moveSpeed := MOVE_SPEED * speedMod
  let rotateSpeed := ROTATE_SPEED * speedMod
  let heightSpeed := HEIGHT_SPEED * speedMod
  let cosY := Real.cos rotY
  let sinY := Real.sin rotY
  -- Forward/backward
  let x := if "w" ∈ keys then x - sinY * moveSpeed else x
  let z := if "w" ∈ keys then z - cosY * moveSpeed else z
  let x := if "s" ∈ keys then x + sinY * moveSpeed else x
  let z := if "s" ∈ keys then z + cosY * moveSpeed else z
  -- Strafe left/right
  let x := if "a" ∈ keys then x - cosY * moveSpeed else x
  let z := if "a" ∈ keys then z + sinY * moveSpeed else z
  let x := if "d" ∈ keys then x + cosY * moveSpeed else x
  let z := if "d" ∈ keys then z - sinY * moveSpeed else z
  -- Height
  let y := if "q" ∈ keys then y - heightSpeed else y
  let y := if "e" ∈ keys then y + heightSpeed else y
  -- Rotation with the arrow keys
  let rotX := if "arrowup" ∈ keys then max (-Real.pi / 2) (rotX - rotateSpeed) else rotX
  let rotX := if "arrowdown" ∈ keys then min (Real.pi / 2) (rotX + rotateSpeed) else rotX
  let rotY := if "arrowleft" ∈ keys then rotY + rotateSpeed else rotY
  let rotY := if "arrowright" ∈ keys then rotY - rotateSpeed else rotY
  -- Clamp height
  let y := max 0.05 (min 10 y)
  (⟨x, y, z⟩, ⟨rotX, rotY, rotZ⟩)

/-- The controller's `updateCamera`, run once per animation frame: the camera updates it
dispatches, in order, given the camera it reads from the store.  `setPosition` and `setRotation`
are each one `updateCamera` of the store. -/
noncomputable def useKeyboardControls.updateCamera (controls : Controls) (camera : Camera ℝ) :
    List (CameraUpdate ℝ) :=
  if !controls.isActive || controls.keysPressed.length == 0 then []
  else
    let position := (useKeyboardControls.computed controls.keysPressed controls.altPressed
      camera).1
    let rotation := (useKeyboardControls.computed controls.keysPressed controls.altPressed
      camera).2
    (if position.x ≠ camera.position.x ∨ position.y ≠ camera.position.y ∨
        position.z ≠ camera.position.z then
      [{ position := some position, rotation := none, fov := none }]
    else []) ++
    (if rotation.x ≠ camera.rotation.x ∨ rotation.y ≠ camera.rotation.y then
      [{ position := none, rotation := some rotation, fov := none }]
    else [])

/-- One tick on the store: the updates the controller dispatches, applied in order. -/
noncomputable def useKeyboardControls.tick (now : Nat) (controls : Controls)
    (state : SceneState ℝ) : SceneState ℝ :=
  (useKeyboardControls.updateCamera controls state.directorCamera).foldl
    (fun st updates => ShotComposer.updateCamera now st updates) state

/-- The first comparison of the controller's `updateCamera`: some component of the computed
position differs from the stored one. -/
@[reducible]
def useKeyboardControls.positionChanged (controls : Controls) (camera : Camera ℝ) : Prop :=
  (useKeyboardControls.computed controls.keysPressed controls.altPressed camera).1.x ≠
      camera.position.x ∨
    (useKeyboardControls.computed controls.keysPressed controls.altPressed camera).1.y ≠
      camera.position.y ∨
    (useKeyboardControls.computed controls.keysPressed controls.altPressed camera).1.z ≠
      camera.position.z

/-- The second comparison of the controller's `updateCamera`: the computed pitch or yaw differs
from the stored one. -/
@[reducible]
def useKeyboardControls.rotationChanged (controls : Controls) (camera : Camera ℝ) : Prop :=
  (useKeyboardControls.computed controls.keysPressed controls.altPressed camera).2.x ≠
      camera.rotation.x ∨
    (useKeyboardControls.computed controls.keysPressed controls.altPressed camera).2.y ≠
      camera.rotation.y

/-- The keys the controller reacts to. -/
def controlKeys : List String :=
  ["w", "s", "a", "d", "q", "e", "arrowup", "arrowdown", "arrowleft", "arrowright"]

/-! ## The ranking of shot types -/

/-- The shot types from the narrowest to the widest. -/
def shotLabels : List String :=
  ["extreme close-up", "close-up", "medium close-up", "medium shot", "medium wide shot",
    "wide shot", "extreme wide shot"]

/-- The rank of a shot type in wideness: its position in `shotLabels`. -/
def shotRank (label : String) : Nat :=
  shotLabels.indexOf label

/-! ## Classification bands -/

/-- C5: for every real `fov`, `classifyShot` returns the label of the half-open band that
contains `fov`; each of the boundary values 25, 35, 50, 65, 80, 100 gets the band that begins at
it, and `fov = 200` resolves to "extreme wide shot". -/
theorem classifyShot_bands (fov : ℝ) :
    (classifyShot fov = "extreme close-up" ↔ fov < 25) ∧
    (classifyShot fov = "close-up" ↔ 25 ≤ fov ∧ fov < 35) ∧
    (classifyShot fov = "medium close-up" ↔ 35 ≤ fov ∧ fov < 50) ∧
    (classifyShot fov = "medium shot" ↔ 50 ≤ fov ∧ fov < 65) ∧
    (classifyShot fov = "medium wide shot" ↔ 65 ≤ fov ∧ fov < 80) ∧
    (classifyShot fov = "wide shot" ↔ 80 ≤ fov ∧ fov < 100) ∧
    (classifyShot fov = "extreme wide shot" ↔ 100 ≤ fov) ∧
    classifyShot (25 : ℝ) = "close-up" ∧
    classifyShot (35 : ℝ) = "medium close-up" ∧
    classifyShot (50 : ℝ) = "medium shot" ∧
    classifyShot (65 : ℝ) = "medium wide shot" ∧
    classifyShot (80 : ℝ) = "wide shot" ∧
    classifyShot (100 : ℝ) = "extreme wide shot" ∧
    classifyShot (200 : ℝ) = "extreme wide shot" := by
  refine ⟨?_, ?_, ?_, ?_, ?_, ?_, ?_, ?_, ?_, ?_, ?_, ?_, ?_, ?_⟩
  all_goals unfold classifyShot
  any_goals (norm_num; done)
  all_goals (split_ifs <;> simp <;> (try constructor) <;> intros <;> linarith)

/-- C6: with `diff = cameraY - targetY`, `classifyAngle` returns "bird's eye view" iff
`diff > 2`, "high angle" iff `0.5 < diff ≤ 2`, "eye level" iff `-0.5 ≤ diff ≤ 0.5`, "low angle"
iff `-2 ≤ diff < -0.5` and "worm's eye view" iff `diff < -2`; with the default reference 1.6,
height 1.6 is eye level, height 3.6 is high angle, every height above 3.6 is bird's eye view, and
the boundary differences 0.5, -0.5, 2, -2 give eye level, eye level, high angle, low angle. -/
theorem classifyAngle_bands (cameraY targetY : ℝ) :
    (classifyAngle cameraY targetY = "bird's eye view" ↔ cameraY - targetY > 2) ∧
    (classifyAngle cameraY targetY = "high angle" ↔
      0.5 < cameraY - targetY ∧ cameraY - targetY ≤ 2) ∧
    (classifyAngle cameraY targetY = "eye level" ↔
      -0.5 ≤ cameraY - targetY ∧ cameraY - targetY ≤ 0.5) ∧
    (classifyAngle cameraY targetY = "low angle" ↔
      -2 ≤ cameraY - targetY ∧ cameraY - targetY < -0.5) ∧
    (classifyAngle cameraY targetY = "worm's eye view" ↔ cameraY - targetY < -2) ∧
    classifyAngle (1.6 : ℝ) defaultTargetY = "eye level" ∧
    classifyAngle (3.6 : ℝ) defaultTargetY = "high angle" ∧
    (∀ y : ℝ, 3.6 < y → classifyAngle y defaultTargetY = "bird's eye view") ∧
    classifyAngle (targetY + 0.5) targetY = "eye level" ∧
    classifyAngle (targetY - 0.5) targetY = "eye level" ∧
    classifyAngle (targetY + 2) targetY = "high angle" ∧
    classifyAngle (targetY - 2) targetY = "low angle" := by
  refine ⟨?_, ?_, ?_, ?_, ?_, ?_, ?_, ?_, ?_, ?_, ?_, ?_⟩
  all_goals simp only [classifyAngle, defaultTargetY]
  any_goals (norm_num; done)
  · split_ifs <;> simp <;> norm_num at * <;> linarith
  · split_ifs <;> simp <;> (try constructor) <;> intros <;> norm_num at * <;> linarith
  · split_ifs <;> simp <;> (try constructor) <;> intros <;> norm_num at * <;> linarith
  · split_ifs <;> simp <;> (try constructor) <;> intros <;> norm_num at * <;> linarith
  · split_ifs <;> simp <;> norm_num at * <;> linarith
  · intro y hy
    rw [if_pos (by norm_num at hy ⊢; linarith)]

/-! ## Double-precision subtraction and the depth bands -/

section DoubleLemmas

variable {α : Type} [LinearOrderedField α] [FloorRing α]

/-- An integer rounds to itself. -/
theorem roundHalfEven_intCast (n : ℤ) : roundHalfEven (n : α) = n := by
  simp [roundHalfEven]

/-- A number less than a half above an integer rounds down to it. -/
theorem roundHalfEven_of_lt (x : α) (n : ℤ) (h1 : (n : α) ≤ x) (h2 : x < n + 1 / 2) :
    roundHalfEven x = n := by
  have hf : ⌊x⌋ = n := by
    rw [Int.floor_eq_iff]
    constructor
    · exact h1
    · linarith
  simp only [roundHalfEven, hf]
  rw [if_pos (by linarith)]

/-- A number less than a half below an integer rounds up to it. -/
theorem roundHalfEven_of_gt (x : α) (n : ℤ) (h1 : (n : α) - 1 / 2 < x) (h2 : x < n) :
    roundHalfEven x = n := by
  have hf : ⌊x⌋ = n - 1 := by
    rw [Int.floor_eq_iff]
    push_cast
    constructor
    · linarith
    · linarith
  simp only [roundHalfEven, hf]
  push_cast
  rw [if_neg (by linarith), if_pos (by linarith)]
  ring

/-- The double nearest to a number of the binade `2 ^ e ≤ |x| < 2 ^ (e + 1)`, for a normal
exponent `e`: the quotient by `2 ^ (e - 52)` is rounded to an integer. -/
theorem toDouble_eq (x : α) (e n : ℤ) (he : -1022 ≤ e) (h1 : (2 : α) ^ e ≤ |x|)
    (h2 : |x| < (2 : α) ^ (e + 1)) (hn : roundHalfEven (x / 2 ^ (e - 52)) = n) :
    toDouble x = n * 2 ^ (e - 52) := by
  have hpos : 0 < |x| := lt_of_lt_of_le (zpow_pos (by norm_num) e) h1
  have hlog : Int.log 2 |x| = e := by
    apply le_antisymm
    · have := (Int.lt_zpow_iff_log_lt (by norm_num : 1 < 2) hpos).mp (by exact_mod_cast h2)
      omega
    · exact (Int.zpow_le_iff_le_log (by norm_num : 1 < 2) hpos).mp (by exact_mod_cast h1)
  simp only [toDouble, hlog, max_eq_left he, hn]

/-- Zero is a double. -/
theorem toDouble_zero : toDouble (0 : α) = 0 := by
  simp [toDouble, roundHalfEven]

/-- Every integer below `2 ^ 53` in absolute value is a double. -/
theorem toDouble_intCast (k : ℤ) (hk : |k| < 2 ^ 53) : toDouble (k : α) = k := by
  rcases eq_or_ne k 0 with rfl | hk0
  · rw [Int.cast_zero]; exact toDouble_zero
  · have hpos : (0 : α) < |(k : α)| := abs_pos.mpr (Int.cast_ne_zero.mpr hk0)
    have hlt : |(k : α)| < 2 ^ (53 : ℤ) := by
      have : ((|k| : ℤ) : α) < ((2 ^ 53 : ℤ) : α) := Int.cast_lt.mpr hk
      rw [Int.cast_abs] at this
      rw [zpow_ofNat]
      exact_mod_cast this
    have hlog : Int.log 2 |(k : α)| < 53 :=
      (Int.lt_zpow_iff_log_lt (by norm_num : 1 < 2) hpos).mp (by exact_mod_cast hlt)
    obtain ⟨e, he⟩ : ∃ e : ℤ, e = max (Int.log 2 |(k : α)|) (-1022) := ⟨_, rfl⟩
    have he52 : e ≤ 52 := by rw [he]; exact max_le (by omega) (by norm_num)
    obtain ⟨n, hn⟩ : ∃ n : ℕ, 52 - e = n :=
      ⟨(52 - e).toNat, (Int.toNat_of_nonneg (by omega)).symm⟩
    have hdiv : (k : α) / 2 ^ (e - 52) = ((k * 2 ^ n : ℤ) : α) := by
      have h : e - 52 = -(n : ℤ) := by omega
      rw [h, zpow_neg, zpow_natCast]
      push_cast
      rw [div_eq_mul_inv, inv_inv]
    simp only [toDouble, ← he]
    rw [hdiv, roundHalfEven_intCast, ← hdiv]
    exact div_mul_cancel₀ _ (zpow_ne_zero _ (by norm_num))

/-- Between integers below `2 ^ 52` in absolute value the distance `describeDepth` computes is
the exact one. -/
theorem depthDistance_intCast (m n : ℤ) (hm : |m| < 2 ^ 52) (hn : |n| < 2 ^ 52) :
    |toDouble (toDouble (m : α) - toDouble (n : α))| = |(m : α) - n| := by
  have hmn : |m - n| < 2 ^ 53 := by
    have := abs_sub m n
    omega
  rw [toDouble_intCast m (by omega), toDouble_intCast n (by omega), ← Int.cast_sub,
    toDouble_intCast (m - n) hmn]

/-- Between integers below `2 ^ 52` in absolute value `describeDepth` decides by the exact
distance. -/
theorem describeDepth_intCast (m n : ℤ) (hm : |m| < 2 ^ 52) (hn : |n| < 2 ^ 52) :
    describeDepth (m : α) (n : α) =
      if |(m : α) - n| < 3 then "foreground"
      else if |(m : α) - n| < 8 then "midground"
      else "background" := by
  simp only [describeDepth, depthDistance_intCast m n hm hn]

/-- An entity at Z 0 is in the midground of a camera at Z 5. -/
theorem describeDepth_zero_five : describeDepth (0 : α) 5 = "midground" := by
  have h := @describeDepth_intCast α _ _ 0 5 (by norm_num) (by norm_num)
  norm_num [abs_of_neg] at h
  exact h

/-- An entity at Z 0 is in the foreground of a camera at Z 0. -/
theorem describeDepth_zero_zero : describeDepth (0 : α) 0 = "foreground" := by
  have h := @describeDepth_intCast α _ _ 0 0 (by norm_num) (by norm_num)
  norm_num at h
  exact h

end DoubleLemmas

/-- The double nearest to 4.1. -/
theorem toDouble_four_point_one :
    toDouble (4.1 : ℝ) = 4616189618054758 / 2 ^ 50 := by
  rw [toDouble_eq 4.1 2 4616189618054758 (by norm_num) (by norm_num [abs_of_pos])
    (by norm_num [abs_of_pos])]
  · norm_num
  · apply roundHalfEven_of_lt <;> norm_num

/-- The double nearest to 1.1. -/
theorem toDouble_one_point_one :
    toDouble (1.1 : ℝ) = 4953959590107546 / 2 ^ 52 := by
  rw [toDouble_eq 1.1 0 4953959590107546 (by norm_num) (by norm_num [abs_of_pos])
    (by norm_num [abs_of_pos])]
  · norm_num
  · apply roundHalfEven_of_gt <;> norm_num

/-- The doubles nearest to 4.1 and 1.1 differ by a double, one unit in the last place below
3. -/
theorem depthDistance_rounding :
    |toDouble (toDouble (4.1 : ℝ) - toDouble 1.1)| = 3 - 1 / 2 ^ 51 := by
  rw [toDouble_four_point_one, toDouble_one_point_one]
  have hx : (4616189618054758 / 2 ^ 50 - 4953959590107546 / 2 ^ 52 : ℝ) =
      6755399441055743 / 2 ^ 51 := by norm_num
  rw [hx, toDouble_eq (6755399441055743 / 2 ^ 51) 1 6755399441055743 (by norm_num)
    (by norm_num [abs_of_pos]) (by norm_num [abs_of_pos])]
  · norm_num [abs_of_pos]
  · have : (6755399441055743 / 2 ^ 51 : ℝ) / 2 ^ ((1 : ℤ) - 52) =
        ((6755399441055743 : ℤ) : ℝ) := by norm_num
    rw [this, roundHalfEven_intCast]

/-- C8: with `d = |entityZ - cameraZ|` the distance `describeDepth` computes from its two
numbers, the absolute value of their difference as doubles, the function returns "foreground" iff
`d < 3`, "midground" iff `3 ≤ d < 8` and "background" iff `d ≥ 8`, so that `d = 3` is midground
and `d = 8` is background.  Between integers below `2 ^ 52` the computed `d` is the exact
distance: Z values 3 and 0, and 2 and 5, give midground, 8 and 0, and -3 and 5, give background.
The doubles that the numerals 4.1 and 1.1 denote differ by `3 - 2 ^ (-51)`, which is the computed
`d` (printed 2.9999999999999996), and the bucket is foreground. -/
theorem describeDepth_bands (entityZ cameraZ : ℝ) :
    (describeDepth entityZ cameraZ = "foreground" ↔
      |toDouble (toDouble entityZ - toDouble cameraZ)| < 3) ∧
    (describeDepth entityZ cameraZ = "midground" ↔
      3 ≤ |toDouble (toDouble entityZ - toDouble cameraZ)| ∧
        |toDouble (toDouble entityZ - toDouble cameraZ)| < 8) ∧
    (describeDepth entityZ cameraZ = "background" ↔
      8 ≤ |toDouble (toDouble entityZ - toDouble cameraZ)|) ∧
    (∀ m n : ℤ, |m| < 2 ^ 52 → |n| < 2 ^ 52 →
      |toDouble (toDouble (m : ℝ) - toDouble (n : ℝ))| = |(m : ℝ) - n|) ∧
    describeDepth (3 : ℝ) 0 = "midground" ∧
    describeDepth (2 : ℝ) 5 = "midground" ∧
    describeDepth (8 : ℝ) 0 = "background" ∧
    describeDepth (-3 : ℝ) 5 = "background" ∧
    |toDouble (toDouble (4.1 : ℝ) - toDouble 1.1)| = 3 - 1 / 2 ^ 51 ∧
    describeDepth (4.1 : ℝ) 1.1 = "foreground" := by
  have hint := @describeDepth_intCast ℝ _ _
  refine ⟨?_, ?_, ?_, depthDistance_intCast, ?_, ?_, ?_, ?_, depthDistance_rounding, ?_⟩
  · simp only [describeDepth]
    split_ifs <;> simp <;> linarith
  · simp only [describeDepth]
    split_ifs <;> simp <;> (try constructor) <;> intros <;> linarith
  · simp only [describeDepth]
    split_ifs <;> simp <;> linarith
  · have h := hint 3 0 (by norm_num) (by norm_num)
    norm_num at h
    exact h
  · have h := hint 2 5 (by norm_num) (by norm_num)
    norm_num [abs_of_neg] at h
    exact h
  · have h := hint 8 0 (by norm_num) (by norm_num)
    norm_num at h
    exact h
  · have h := hint (-3) 5 (by norm_num) (by norm_num)
    norm_num [abs_of_neg] at h
    exact h
  · simp only [describeDepth, depthDistance_rounding]
    norm_num

/-! ## Focal length -/

/-- The tangent of 25 degrees lies strictly between 36/79 and 36/77. -/
theorem tan_fov50_bounds :
    (36 : ℝ) / 79 < Real.tan (50 * Real.pi / 360) ∧ Real.tan (50 * Real.pi / 360) < 36 / 77 := by
  have hpl := Real.pi_gt_d6
  have hpu := Real.pi_lt_d6
  obtain ⟨t, ht⟩ : ∃ t : ℝ, t = 5 * Real.pi / 72 := ⟨_, rfl⟩
  have hx : 50 * Real.pi / 360 = 2 * t := by rw [ht]; ring
  have ht1 : (0.21816 : ℝ) < t := by rw [ht]; norm_num; linarith
  have ht2 : t < (0.21817 : ℝ) := by rw [ht]; norm_num; linarith
  have ht0 : (0 : ℝ) < t := by norm_num at ht1; linarith
  have habs : |t| ≤ 1 := by rw [abs_of_pos ht0]; norm_num at ht2; linarith
  have hs := Real.sin_bound habs
  have hc := Real.cos_bound habs
  rw [abs_le, abs_of_pos ht0] at hs hc
  have h2l : (0.21816 : ℝ) ^ 2 ≤ t ^ 2 := by gcongr
  have h2u : t ^ 2 ≤ (0.21817 : ℝ) ^ 2 := by gcongr
  have h3l : (0.21816 : ℝ) ^ 3 ≤ t ^ 3 := by gcongr
  have h3u : t ^ 3 ≤ (0.21817 : ℝ) ^ 3 := by gcongr
  have h4u : t ^ 4 ≤ (0.21817 : ℝ) ^ 4 := by gcongr
  have h4l : (0 : ℝ) ≤ t ^ 4 := by positivity
  have hsl : (0.2163 : ℝ) < Real.sin t := by norm_num at *; linarith
  have hsu : Real.sin t < (0.21656 : ℝ) := by norm_num at *; linarith
  have hcl : (0.97608 : ℝ) < Real.cos t := by norm_num at *; linarith
  have hcu : Real.cos t < (0.97633 : ℝ) := by norm_num at *; linarith
  have hscl : (0.2163 : ℝ) * 0.97608 < Real.sin t * Real.cos t :=
    mul_lt_mul'' hsl hcl (by norm_num) (by norm_num)
  have hscu : Real.sin t * Real.cos t < (0.21656 : ℝ) * 0.97633 :=
    mul_lt_mul'' hsu hcu (by linarith) (by linarith)
  have hccl : (0.97608 : ℝ) ^ 2 < Real.cos t ^ 2 := by gcongr
  have hccu : Real.cos t ^ 2 < (0.97633 : ℝ) ^ 2 := by gcongr
  have hcos : (0 : ℝ) < 2 * Real.cos t ^ 2 - 1 := by norm_num at hccl ⊢; linarith
  rw [hx, Real.tan_eq_sin_div_cos, Real.sin_two_mul, Real.cos_two_mul]
  constructor
  · rw [div_lt_div_iff₀ (by norm_num) hcos]
    norm_num at hscl hccu ⊢
    linarith
  · rw [div_lt_div_iff₀ hcos (by norm_num)]
    norm_num at hscu hccl ⊢
    linarith

/-- Before rounding, the focal length at `fov = 50` lies strictly between 38.5 and 39.5. -/
theorem focal_fov50_bounds :
    (38.5 : ℝ) < 36 / 2 / Real.tan (50 * Real.pi / 360) ∧
      36 / 2 / Real.tan (50 * Real.pi / 360) < (39.5 : ℝ) := by
  obtain ⟨hl, hu⟩ := tan_fov50_bounds
  have hpos : (0 : ℝ) < Real.tan (50 * Real.pi / 360) := lt_trans (by norm_num) hl
  constructor
  · rw [lt_div_iff₀ hpos]
    norm_num at hu ⊢
    linarith
  · rw [div_lt_iff₀ hpos]
    norm_num at hl ⊢
    linarith

/-- The focal length of the initial field of view. -/
theorem fovToFocalLength_fifty : fovToFocalLength 50 defaultSensorSize = 39 := by
  obtain ⟨hl, hu⟩ := focal_fov50_bounds
  unfold fovToFocalLength mathRound defaultSensorSize
  rw [Int.floor_eq_iff]
  constructor
  · push_cast
    norm_num at hl ⊢
    linarith
  · push_cast
    norm_num at hu ⊢
    linarith

/-- C7: `fovToFocalLength` is `round((sensorSize/2) / tan(fov·π/360))`; with the default 36
sensor, `18 / tan(25°)` lies strictly between 38.5 and 39.5, so the result is exactly 39 for
`fov = 50`, and it is exactly 18 for `fov = 90`. -/
theorem fovToFocalLength_examples :
    (∀ fov sensorSize : ℝ, fovToFocalLength fov sensorSize =
      round ((sensorSize / 2) / Real.tan (fov * Real.pi / 360))) ∧
    defaultSensorSize = 36 ∧
    (38.5 : ℝ) < 18 / Real.tan (25 * Real.pi / 180) ∧
    18 / Real.tan (25 * Real.pi / 180) < (39.5 : ℝ) ∧
    fovToFocalLength 50 defaultSensorSize = 39 ∧
    fovToFocalLength 90 defaultSensorSize = 18 := by
  have h25 : 25 * Real.pi / 180 = 50 * Real.pi / 360 := by ring
  have h18 : (18 : ℝ) = 36 / 2 := by norm_num
  refine ⟨?_, rfl, ?_, ?_, fovToFocalLength_fifty, ?_⟩
  · intro fov sensorSize
    rw [round_eq]
    rfl
  · rw [h25, h18]
    exact focal_fov50_bounds.1
  · rw [h25, h18]
    exact focal_fov50_bounds.2
  · have h90 : 90 * Real.pi / 360 = Real.pi / 4 := by ring
    unfold fovToFocalLength mathRound defaultSensorSize
    rw [h90, Real.tan_pi_div_four, Int.floor_eq_iff]
    constructor <;> norm_num

/-! ## Facing -/

/-- The bearing of a camera straight ahead of the entity on +Z is 0. -/
theorem atan2_zero_pos {x : ℝ} (hx : 0 ≤ x) : atan2 0 x = 0 :=
  Complex.arg_ofReal_of_nonneg hx

/-- The bearing of a camera straight behind the entity on -Z is π. -/
theorem atan2_zero_neg {x : ℝ} (hx : x < 0) : atan2 0 x = Real.pi :=
  Complex.arg_ofReal_of_neg hx

/-- The bearing of a camera on the +X side of the entity is π/2. -/
theorem atan2_pos_zero {y : ℝ} (hy : 0 < y) : atan2 y 0 = Real.pi / 2 :=
  Complex.arg_eq_pi_div_two_iff.mpr ⟨rfl, hy⟩

/-- C9: with `b = atan2(camera.x - entity.x, camera.z - entity.z)` and `d = |b - r|` replaced by
`2π - d` when `d > π`, `describeFacing` returns "facing camera" iff `d < π/6`, "facing away" iff
`d > 5π/6`, "three-quarter view" iff `π/6 ≤ d < π/2` and "profile view" iff `π/2 ≤ d ≤ 5π/6`.
This holds for every yaw `r`, in particular for `r` in `[-π, π]`.  An entity at the origin with
yaw 0 is "facing camera" for a camera at `(0, y, 5)`, "facing away" for a camera at `(0, y, -5)`
and in "profile view" for a camera at `(5, y, 0)`. -/
theorem describeFacing_bands (r : ℝ) (cameraPosition entityPosition : Vec3 ℝ) :
    angleDiff r cameraPosition entityPosition =
      (if |atan2 (cameraPosition.x - entityPosition.x) (cameraPosition.z - entityPosition.z) - r|
          > Real.pi
       then 2 * Real.pi -
        |atan2 (cameraPosition.x - entityPosition.x) (cameraPosition.z - entityPosition.z) - r|
       else
        |atan2 (cameraPosition.x - entityPosition.x) (cameraPosition.z - entityPosition.z) - r|) ∧
    (describeFacing r cameraPosition entityPosition = "facing camera" ↔
      angleDiff r cameraPosition entityPosition < Real.pi / 6) ∧
    (describeFacing r cameraPosition entityPosition = "facing away" ↔
      angleDiff r cameraPosition entityPosition > 5 * Real.pi / 6) ∧
    (describeFacing r cameraPosition entityPosition = "three-quarter view" ↔
      Real.pi / 6 ≤ angleDiff r cameraPosition entityPosition ∧
        angleDiff r cameraPosition entityPosition < Real.pi / 2) ∧
    (describeFacing r cameraPosition entityPosition = "profile view" ↔
      Real.pi / 2 ≤ angleDiff r cameraPosition entityPosition ∧
        angleDiff r cameraPosition entityPosition ≤ 5 * Real.pi / 6) ∧
    (∀ y : ℝ, describeFacing 0 ⟨0, y, 5⟩ ⟨0, 0, 0⟩ = "facing camera") ∧
    (∀ y : ℝ, describeFacing 0 ⟨0, y, -5⟩ ⟨0, 0, 0⟩ = "facing away") ∧
    (∀ y : ℝ, describeFacing 0 ⟨5, y, 0⟩ ⟨0, 0, 0⟩ = "profile view") := by
  have hpi := Real.pi_pos
  refine ⟨rfl, ?_, ?_, ?_, ?_, ?_, ?_, ?_⟩
  · simp only [describeFacing]
    split_ifs <;> simp <;> linarith
  · simp only [describeFacing]
    split_ifs <;> simp <;> linarith
  · simp only [describeFacing]
    split_ifs <;> simp <;> (try constructor) <;> intros <;> linarith
  · simp only [describeFacing]
    split_ifs <;> simp <;> (try constructor) <;> intros <;> linarith
  · intro y
    have hb : atan2 (0 - 0) (5 - 0) = 0 := by
      rw [sub_zero, sub_zero]; exact atan2_zero_pos (by norm_num)
    have hd : angleDiff 0 ⟨0, y, 5⟩ ⟨0, 0, 0⟩ = 0 := by
      simp only [angleDiff, toCameraAngle, hb]
      rw [sub_zero, abs_zero, if_neg (by linarith)]
    simp only [describeFacing, hd]
    rw [if_pos (by linarith)]
  · intro y
    have hb : atan2 (0 - 0) (-5 - 0) = Real.pi := by
      rw [sub_zero, sub_zero]; exact atan2_zero_neg (by norm_num)
    have hd : angleDiff 0 ⟨0, y, -5⟩ ⟨0, 0, 0⟩ = Real.pi := by
      simp only [angleDiff, toCameraAngle, hb]
      rw [sub_zero, abs_of_pos hpi, if_neg (lt_irrefl _)]
    simp only [describeFacing, hd]
    rw [if_neg (by linarith), if_pos (by linarith)]
  · intro y
    have hb : atan2 (5 - 0) (0 - 0) = Real.pi / 2 := by
      rw [sub_zero, sub_zero]; exact atan2_pos_zero (by norm_num)
    have hd : angleDiff 0 ⟨5, y, 0⟩ ⟨0, 0, 0⟩ = Real.pi / 2 := by
      simp only [angleDiff, toCameraAngle, hb]
      rw [sub_zero, abs_of_pos (by linarith), if_neg (by linarith)]
    simp only [describeFacing, hd]
    rw [if_neg (by linarith), if_neg (by linarith), if_neg (lt_irrefl _)]

/-- For a yaw within π of the bearing's range, that is `|r| ≤ π`, the normalised angular
difference lies in `[0, π]`. -/
theorem angleDiff_mem_of_abs_le (r : ℝ) (cameraPosition entityPosition : Vec3 ℝ)
    (hr : |r| ≤ Real.pi) :
    0 ≤ angleDiff r cameraPosition entityPosition ∧
      angleDiff r cameraPosition entityPosition ≤ Real.pi := by
  have hpi := Real.pi_pos
  have h1 := Complex.neg_pi_lt_arg
    ⟨cameraPosition.z - entityPosition.z, cameraPosition.x - entityPosition.x⟩
  have h2 := Complex.arg_le_pi
    ⟨cameraPosition.z - entityPosition.z, cameraPosition.x - entityPosition.x⟩
  obtain ⟨hr1, hr2⟩ := abs_le.mp hr
  simp only [angleDiff, toCameraAngle, atan2]
  split_ifs with h
  · have := abs_le.mpr (⟨by linarith, by linarith⟩ :
      -(2 * Real.pi) ≤ Complex.arg
        ⟨cameraPosition.z - entityPosition.z, cameraPosition.x - entityPosition.x⟩ - r ∧
      Complex.arg
        ⟨cameraPosition.z - entityPosition.z, cameraPosition.x - entityPosition.x⟩ - r
        ≤ 2 * Real.pi)
    constructor <;> linarith
  · exact ⟨abs_nonneg _, not_lt.mp h⟩

/-- C10 (evaluation at a failing input): for the yaw `3π` and a camera straight ahead of the
entity, the raw difference is `3π`, the single normalisation step turns it into `-π`, which is
outside `[0, π]`, and the entity, which faces away from the camera, is reported as
"facing camera". -/
theorem angleDiff_three_pi :
    angleDiff (3 * Real.pi) ⟨0, 1.6, 5⟩ ⟨0, 1, 0⟩ = -Real.pi ∧
    ¬ (0 ≤ angleDiff (3 * Real.pi) ⟨0, 1.6, 5⟩ ⟨0, 1, 0⟩) ∧
    describeFacing (3 * Real.pi) ⟨0, 1.6, 5⟩ ⟨0, 1, 0⟩ = "facing camera" ∧
    describeFacing Real.pi ⟨0, 1.6, 5⟩ ⟨0, 1, 0⟩ = "facing away" := by
  have hpi := Real.pi_pos
  have hb : atan2 (0 - 0) (5 - 0) = 0 := by
    rw [sub_zero, sub_zero]; exact atan2_zero_pos (by norm_num)
  have hd : angleDiff (3 * Real.pi) ⟨0, 1.6, 5⟩ ⟨0, 1, 0⟩ = -Real.pi := by
    simp only [angleDiff, toCameraAngle, hb]
    rw [zero_sub, abs_neg, abs_of_pos (by linarith), if_pos (by linarith)]
    ring
  have hd1 : angleDiff Real.pi ⟨0, 1.6, 5⟩ ⟨0, 1, 0⟩ = Real.pi := by
    simp only [angleDiff, toCameraAngle, hb]
    rw [zero_sub, abs_neg, abs_of_pos hpi, if_neg (lt_irrefl _)]
  refine ⟨hd, ?_, ?_, ?_⟩
  · rw [hd]; linarith
  · simp only [describeFacing, hd]
    rw [if_pos (by linarith)]
  · simp only [describeFacing, hd1]
    rw [if_neg (by linarith), if_pos (by linarith)]

/-! ## The depth sort -/

section DepthSort

variable {β : Type}

/-- The sort returns a permutation of its input. -/
theorem jsSort_perm (compareFn : β → β → Int) (l : List β) : (jsSort compareFn l).Perm l :=
  List.perm_insertionSort _ l

/-- Inserting an element into a list by a key order leaves every key class in its old order. -/
theorem filter_orderedInsert_of_key (r : β → β → Prop) [DecidableRel r] (key : β → Int)
    (hr : ∀ x y, r x y ↔ key x ≤ key y) (k : Int) (a : β) (l : List β) :
    (l.orderedInsert r a).filter (fun e => decide (key e = k)) =
      (a :: l).filter (fun e => decide (key e = k)) := by
  induction l with
  | nil => simp
  | cons b l ih =>
    by_cases hab : r a b
    · simp [List.orderedInsert, hab]
    · have hlt : key b < key a := not_le.mp (fun h => hab ((hr a b).mpr h))
      rw [List.orderedInsert, if_neg hab, List.filter_cons, ih]
      by_cases hbk : key b = k
      · have hak : key a ≠ k := fun h => by omega
        simp [List.filter_cons, hbk, hak]
      · simp [List.filter_cons, hbk]

/-- The sort is stable: for a comparator that subtracts keys, the elements of every key class
come out in their input order. -/
theorem jsSort_filter_key (compareFn : β → β → Int) (key : β → Int)
    (h : ∀ x y, compareFn x y = key x - key y) (k : Int) (l : List β) :
    (jsSort compareFn l).filter (fun e => decide (key e = k)) =
      l.filter (fun e => decide (key e = k)) := by
  have hr : ∀ x y, compareFn x y ≤ 0 ↔ key x ≤ key y := fun x y => by rw [h]; omega
  induction l with
  | nil => rfl
  | cons a l ih =>
    have hstep := filter_orderedInsert_of_key (fun x y => compareFn x y ≤ 0) key hr k a
      (List.insertionSort (fun x y => compareFn x y ≤ 0) l)
    simp only [jsSort] at ih
    simp only [jsSort, List.insertionSort]
    rw [hstep, List.filter_cons, List.filter_cons, ih]

/-- The sort orders its input: for a comparator that subtracts keys, the keys of the result are
non-decreasing. -/
theorem jsSort_pairwise_key (compareFn : β → β → Int) (key : β → Int)
    (h : ∀ x y, compareFn x y = key x - key y) (l : List β) :
    (jsSort compareFn l).Pairwise (fun x y => key x ≤ key y) := by
  have hr : ∀ x y, compareFn x y ≤ 0 ↔ key x ≤ key y := fun x y => by rw [h]; omega
  haveI : IsTotal β (fun x y => compareFn x y ≤ 0) :=
    ⟨fun x y => by simp only [hr]; exact le_total _ _⟩
  haveI : IsTrans β (fun x y => compareFn x y ≤ 0) :=
    ⟨fun x y z hxy hyz => by simp only [hr] at *; exact le_trans hxy hyz⟩
  exact (List.sorted_insertionSort (fun x y => compareFn x y ≤ 0) l).imp
    (fun hxy => (hr _ _).mp hxy)

end DepthSort

/-- The comparator of the depth sort subtracts bucket ranks. -/
theorem compareDepth_eq (camera : Camera ℝ) (a b : Entity ℝ) :
    compareDepth camera a b =
      depthRank (describeDepth a.position.z camera.position.z) -
        depthRank (describeDepth b.position.z camera.position.z) :=
  rfl

/-- Two depth buckets are equal exactly when their ranks are. -/
theorem describeDepth_eq_iff_rank (entityZ cameraZ : ℝ) (bucket : String)
    (hb : bucket = "foreground" ∨ bucket = "midground" ∨ bucket = "background") :
    describeDepth entityZ cameraZ = bucket ↔
      depthRank (describeDepth entityZ cameraZ) = depthRank bucket := by
  simp only [describeDepth]
  rcases hb with hb | hb | hb <;> subst hb <;> split_ifs <;> decide

/-- Every depth bucket is one of the three keys of `depthOrder`. -/
theorem describeDepth_mem (entityZ cameraZ : ℝ) :
    describeDepth entityZ cameraZ = "foreground" ∨ describeDepth entityZ cameraZ = "midground" ∨
      describeDepth entityZ cameraZ = "background" := by
  simp only [describeDepth]
  split_ifs <;> simp

/-- The number of descriptions is the number of entities. -/
theorem length_entities [CaseMapping] (camera : Camera ℝ) (entities : List (Entity ℝ)) :
    ((sortedEntities camera entities).map (describeEntity camera)).length = entities.length := by
  rw [List.length_map]
  exact (jsSort_perm _ _).length_eq

/-! ## The prompt -/

/-- On ASCII text `toLowerCase` lower-cases the letters `A` to `Z` and keeps the rest. -/
theorem toLowerCase_ascii [CaseMapping] (s : String) (h : ∀ c ∈ s.data, c.val < 128) :
    toLowerCase s = String.mk (s.data.map Char.toLower) :=
  CaseMapping.lower_ascii s h

/-- The source's description of an entity is the specification's format. -/
theorem describeEntity_eq_spec [CaseMapping] (camera : Camera ℝ) (entity : Entity ℝ) :
    describeEntity camera entity = specDescription camera entity := by
  have hyaw : orZero (entity.rotation.map Vec3.y) = specYaw entity := by
    unfold orZero specYaw
    cases entity.rotation with
    | none => rfl
    | some rotation =>
      simp only [Option.map_some']
      split_ifs with h
      · exact h.symm
      · rfl
  have hp : toLowerCase "person" = "person" := by
    rw [toLowerCase_ascii _ (by decide)]; decide
  have ho : toLowerCase "object" = "object" := by
    rw [toLowerCase_ascii _ (by decide)]; decide
  unfold describeEntity specDescription
  simp only [hyaw]
  by_cases ht : entity.type = "human"
  · rw [if_pos ht, if_pos ht]
    have hl : toLowerCase (orDefault entity.label "person") = specLabel entity := by
      unfold orDefault specLabel
      cases entity.label with
      | none => simp only [if_pos ht]; exact hp
      | some label =>
        simp only
        split_ifs
        · exact hp
        · rfl
    rw [hl]
  · rw [if_neg ht, if_neg ht]
    have hl : toLowerCase (orDefault entity.label "object") = specLabel entity := by
      unfold orDefault specLabel
      cases entity.label with
      | none => simp only [if_neg ht]; exact ho
      | some label =>
        simp only
        split_ifs
        · exact ho
        · rfl
    rw [hl]

/-- The initial camera gives a medium shot. -/
theorem classifyShot_fifty : classifyShot (50 : ℝ) = "medium shot" := by
  unfold classifyShot
  norm_num

/-- The initial camera is at eye level. -/
theorem classifyAngle_initial : classifyAngle (1.6 : ℝ) defaultTargetY = "eye level" := by
  simp only [classifyAngle, defaultTargetY]
  norm_num

/-- The assembled prompt, written with the fields of the result. -/
theorem generatePrompt_full_eq [CaseMapping] (camera : Camera ℝ) (entities : List (Entity ℝ)) :
    (generatePrompt camera entities).full =
      "A " ++ (generatePrompt camera entities).shotType ++ " from " ++
        (generatePrompt camera entities).angle ++
        (if entities.isEmpty then ". Empty scene."
         else ". " ++ ". ".intercalate (generatePrompt camera entities).entities ++ ".") ++
        " Shot on " ++ toString (generatePrompt camera entities).focalLength ++
        "mm lens. Cinematic composition, professional lighting, photorealistic." := by
  rcases entities with _ | ⟨e, es⟩
  · simp only [generatePrompt, sortedEntities, jsSort, List.insertionSort, List.map_nil,
      List.length_nil, gt_iff_lt, lt_self_iff_false, if_false, List.isEmpty_nil, if_true,
      String.append_assoc]
  · have hlen := length_entities camera (e :: es)
    have hpos : ((sortedEntities camera (e :: es)).map (describeEntity camera)).length > 0 := by
      rw [hlen]; simp
    simp only [generatePrompt, if_pos hpos, List.isEmpty_cons, Bool.false_eq_true, if_false,
      String.append_assoc]

/-- C1: `generatePrompt` returns `shotType = classifyShot(fov)`, `angle =
classifyAngle(position[1])` with the 1.6 reference, `focalLength = fovToFocalLength(fov)` with the
36 sensor, `entities` = the per-entity descriptions, and `full` = "A {shotType} from {angle}",
then ". Empty scene." for an empty entity list and otherwise ". " + the descriptions joined with
". " + ".", then the lens suffix.  For the store's initial camera and no entities, `entities` is
empty and `full` is the medium-shot, eye-level, 39mm prompt. -/
theorem generatePrompt_fields [CaseMapping] (camera : Camera ℝ) (entities : List (Entity ℝ)) :
    (generatePrompt camera entities).shotType = classifyShot camera.fov ∧
    (generatePrompt camera entities).angle = classifyAngle camera.position.y 1.6 ∧
    (generatePrompt camera entities).focalLength = fovToFocalLength camera.fov 36 ∧
    (generatePrompt camera entities).entities =
      (sortedEntities camera entities).map (describeEntity camera) ∧
    (generatePrompt camera entities).full =
      "A " ++ (generatePrompt camera entities).shotType ++ " from " ++
        (generatePrompt camera entities).angle ++
        (if entities.isEmpty then ". Empty scene."
         else ". " ++ ". ".intercalate (generatePrompt camera entities).entities ++ ".") ++
        " Shot on " ++ toString (generatePrompt camera entities).focalLength ++
        "mm lens. Cinematic composition, professional lighting, photorealistic." ∧
    (initialState.directorCamera : Camera ℝ) = ⟨⟨0, 1.6, 5⟩, ⟨0, 0, 0⟩, 50⟩ ∧
    (initialState.entities : List (Entity ℝ)) = [] ∧
    (generatePrompt initialState.directorCamera initialState.entities).entities = [] ∧
    (generatePrompt initialState.directorCamera initialState.entities).full =
      "A medium shot from eye level. Empty scene. Shot on 39mm lens. Cinematic composition, professional lighting, photorealistic." := by
  refine ⟨rfl, rfl, rfl, rfl, generatePrompt_full_eq camera entities, rfl, rfl, rfl, ?_⟩
  · simp only [generatePrompt, initialState, sortedEntities, jsSort, List.insertionSort,
      List.map_nil, List.length_nil, gt_iff_lt, lt_self_iff_false, if_false, classifyShot_fifty,
      classifyAngle_initial, fovToFocalLength_fifty]
    decide

/-- The prompt for the initial camera and the first human added to the scene. -/
theorem person1_prompt [CaseMapping] (id : Nat) :
    (addedHuman id 0 : Entity ℝ).label = some "Person 1" ∧
    (generatePrompt ⟨⟨0, 1.6, 5⟩, ⟨0, 0, 0⟩, 50⟩ [addedHuman id 0]).shotType = "medium shot" ∧
    (generatePrompt ⟨⟨0, 1.6, 5⟩, ⟨0, 0, 0⟩, 50⟩ [addedHuman id 0]).angle = "eye level" ∧
    (generatePrompt ⟨⟨0, 1.6, 5⟩, ⟨0, 0, 0⟩, 50⟩ [addedHuman id 0]).focalLength = 39 ∧
    (generatePrompt ⟨⟨0, 1.6, 5⟩, ⟨0, 0, 0⟩, 50⟩ [addedHuman id 0]).entities =
      ["In the midground, person 1 standing, facing camera"] ∧
    (generatePrompt ⟨⟨0, 1.6, 5⟩, ⟨0, 0, 0⟩, 50⟩ [addedHuman id 0]).full =
      "A medium shot from eye level. In the midground, person 1 standing, facing camera. Shot on 39mm lens. Cinematic composition, professional lighting, photorealistic." := by
  have hpi := Real.pi_pos
  have hdepth : describeDepth (0 : ℝ) 5 = "midground" := describeDepth_zero_five
  have hb : atan2 (0 - 0) (5 - 0) = 0 := by
    rw [sub_zero, sub_zero]; exact atan2_zero_pos (by norm_num)
  have hd : angleDiff 0 ⟨0, 1.6, 5⟩ ⟨0, 1, 0⟩ = 0 := by
    simp only [angleDiff, toCameraAngle, hb]
    rw [sub_zero, abs_zero, if_neg (by linarith)]
  have hfacing : describeFacing 0 ⟨0, 1.6, 5⟩ ⟨0, 1, 0⟩ = "facing camera" := by
    simp only [describeFacing, hd]
    rw [if_pos (by linarith)]
  have hpose : describePose (some ([] : Pose ℝ)) = "standing" := by
    norm_num [describePose, poseAngle, orZero]
  have hlabel : (addedHuman id 0 : Entity ℝ).label = some "Person 1" := by
    simp only [addedHuman]
    decide
  have hlower : toLowerCase "Person 1" = "person 1" := by
    rw [toLowerCase_ascii _ (by decide)]; decide
  have hdesc : describeEntity ⟨⟨0, 1.6, 5⟩, ⟨0, 0, 0⟩, 50⟩ (addedHuman id 0) =
      "In the midground, person 1 standing, facing camera" := by
    rw [describeEntity_eq_spec]
    simp only [specDescription, specYaw, specLabel, hlabel]
    simp only [addedHuman, hdepth, hfacing, hpose, hlower]
    decide
  have hent : (generatePrompt ⟨⟨0, 1.6, 5⟩, ⟨0, 0, 0⟩, 50⟩ [addedHuman id 0]).entities =
      ["In the midground, person 1 standing, facing camera"] := by
    simp only [generatePrompt, sortedEntities, jsSort, List.insertionSort, List.orderedInsert,
      List.map_cons, List.map_nil, hdesc]
  refine ⟨hlabel, classifyShot_fifty, classifyAngle_initial, fovToFocalLength_fifty, hent, ?_⟩
  have hfull := (generatePrompt_full_eq ⟨⟨0, 1.6, 5⟩, ⟨0, 0, 0⟩, 50⟩ [addedHuman id 0])
  rw [hfull, hent]
  simp only [generatePrompt, classifyShot_fifty, classifyAngle_initial, fovToFocalLength_fifty,
    List.isEmpty_cons, Bool.false_eq_true, if_false]
  decide

/-- C2 (as amended): for the camera at `[0, 1.6, 5]` with rotation `[0, 0, 0]` and fov 50 and
the single human "Person 1" at `[0, 1, 0]` with rotation `[0, 0, 0]` and an empty pose,
`generatePrompt` returns `shotType` "medium shot", `angle` "eye level", `focalLength` 39, and the
prompt "A medium shot from eye level. In the midground, person 1 standing, facing camera. Shot on
39mm lens. Cinematic composition, professional lighting, photorealistic."  The id the store gave
the entity plays no part. -/
theorem generatePrompt_person1 [CaseMapping] (id : Nat) :
    (addedHuman id 0 : Entity ℝ).label = some "Person 1" ∧
    (addedHuman id 0 : Entity ℝ).position = ⟨0, 1, 0⟩ ∧
    (addedHuman id 0 : Entity ℝ).rotation = some ⟨0, 0, 0⟩ ∧
    (addedHuman id 0 : Entity ℝ).pose = some [] ∧
    (generatePrompt ⟨⟨0, 1.6, 5⟩, ⟨0, 0, 0⟩, 50⟩ [addedHuman id 0]).shotType = "medium shot" ∧
    (generatePrompt ⟨⟨0, 1.6, 5⟩, ⟨0, 0, 0⟩, 50⟩ [addedHuman id 0]).angle = "eye level" ∧
    (generatePrompt ⟨⟨0, 1.6, 5⟩, ⟨0, 0, 0⟩, 50⟩ [addedHuman id 0]).focalLength = 39 ∧
    (generatePrompt ⟨⟨0, 1.6, 5⟩, ⟨0, 0, 0⟩, 50⟩ [addedHuman id 0]).full =
      "A medium shot from eye level. In the midground, person 1 standing, facing camera. Shot on 39mm lens. Cinematic composition, professional lighting, photorealistic." := by
  obtain ⟨hl, hs, ha, hf, _, hfull⟩ := person1_prompt id
  exact ⟨hl, rfl, rfl, rfl, hs, ha, hf, hfull⟩

/-- C2 (the claim as stated fails): for that camera and entity the shot type is not
"medium close-up" and the prompt is not the one that opens "A medium close-up" and places the
person in the foreground.  The case mapping is the ASCII one; the label "Person 1" is ASCII text,
on which every case mapping agrees with it. -/
theorem generatePrompt_person1_not_close_up :
    (@generatePrompt asciiCaseMapping ⟨⟨0, 1.6, 5⟩, ⟨0, 0, 0⟩, 50⟩ [addedHuman 0 0]).shotType ≠
      "medium close-up" ∧
    (@generatePrompt asciiCaseMapping ⟨⟨0, 1.6, 5⟩, ⟨0, 0, 0⟩, 50⟩ [addedHuman 0 0]).full ≠
      "A medium close-up from eye level. In the foreground, person 1 standing, facing camera. Shot on 39mm lens. Cinematic composition, professional lighting, photorealistic." := by
  obtain ⟨_, hs, _, _, _, hfull⟩ := @person1_prompt asciiCaseMapping 0
  rw [hs, hfull]
  exact ⟨by decide, by decide⟩

/-- C3: the description `generatePrompt` produces for an entity is
"In the {depth}, {label} {pose}, {facing}" when the entity's type is human and
"In the {depth}, {label} {facing}" otherwise, with `depth = describeDepth(entity z, camera z)`,
`facing = describeFacing(entity yaw, camera position, entity position)`,
`pose = describePose(entity.pose)`, and `label` the entity's label lower-cased, or "person" for
a human and "object" otherwise when the label is missing or empty.  The entity yaw is the Y
component of the entity's `rotation`, and 0 for an entity without one.  Lower-casing is the
engine's `toLowerCase`, whatever its case mapping; for a label of ASCII characters it is the label
with the letters `A` to `Z` replaced by `a` to `z`. -/
theorem generatePrompt_entity_descriptions [CaseMapping] (camera : Camera ℝ)
    (entities : List (Entity ℝ)) :
    (generatePrompt camera entities).entities =
      (sortedEntities camera entities).map (specDescription camera) ∧
    (∀ entity : Entity ℝ,
      (generatePrompt camera [entity]).entities = [specDescription camera entity]) ∧
    (∀ (entity : Entity ℝ) (label : String), entity.label = some label → label ≠ "" →
      (∀ c ∈ label.data, c.val < 128) →
      specLabel entity = String.mk (label.data.map Char.toLower)) := by
  have hfun : describeEntity camera = specDescription camera :=
    funext (describeEntity_eq_spec camera)
  refine ⟨?_, ?_, ?_⟩
  · simp only [generatePrompt, hfun]
  · intro entity
    simp only [generatePrompt, hfun, sortedEntities, jsSort, List.insertionSort,
      List.orderedInsert, List.map_cons, List.map_nil]
  · intro entity label hlabel hne hascii
    simp only [specLabel, hlabel]
    rw [if_neg hne]
    exact toLowerCase_ascii label hascii

/-- C4: the descriptions `generatePrompt` returns are those of a permutation of the input
entities (same length), arranged in non-decreasing depth-bucket rank (foreground 0, midground 1,
background 2), and the entities of each bucket appear in the same relative order as in the input
list. -/
theorem generatePrompt_entities_stable_sort [CaseMapping] (camera : Camera ℝ) (entities : List (Entity ℝ)) :
    (generatePrompt camera entities).entities =
      (sortedEntities camera entities).map (describeEntity camera) ∧
    (sortedEntities camera entities).Perm entities ∧
    (generatePrompt camera entities).entities.length = entities.length ∧
    (sortedEntities camera entities).Pairwise (fun a b =>
      depthRank (describeDepth a.position.z camera.position.z) ≤
        depthRank (describeDepth b.position.z camera.position.z)) ∧
    (∀ bucket : String,
      (sortedEntities camera entities).filter
          (fun e => decide (describeDepth e.position.z camera.position.z = bucket)) =
        entities.filter
          (fun e => decide (describeDepth e.position.z camera.position.z = bucket))) ∧
    depthRank "foreground" = 0 ∧ depthRank "midground" = 1 ∧ depthRank "background" = 2 := by
  refine ⟨rfl, jsSort_perm _ _, length_entities camera entities,
    jsSort_pairwise_key _ _ (compareDepth_eq camera) entities, ?_, by decide, by decide,
    by decide⟩
  intro bucket
  by_cases hb : bucket = "foreground" ∨ bucket = "midground" ∨ bucket = "background"
  · have hp : (fun e : Entity ℝ =>
        decide (describeDepth e.position.z camera.position.z = bucket)) =
        (fun e : Entity ℝ => decide
          (depthRank (describeDepth e.position.z camera.position.z) = depthRank bucket)) := by
      funext e
      exact decide_eq_decide.mpr (describeDepth_eq_iff_rank _ _ bucket hb)
    rw [hp]
    exact jsSort_filter_key _
      (fun e : Entity ℝ => depthRank (describeDepth e.position.z camera.position.z))
      (compareDepth_eq camera) (depthRank bucket) entities
  · have hnone : ∀ l : List (Entity ℝ),
        l.filter (fun e => decide (describeDepth e.position.z camera.position.z = bucket)) =
          [] := by
      intro l
      rw [List.filter_eq_nil_iff]
      intro e _ he
      have he' := of_decide_eq_true he
      rcases describeDepth_mem e.position.z camera.position.z with h | h | h
      · exact hb (Or.inl (he'.symm.trans h))
      · exact hb (Or.inr (Or.inl (he'.symm.trans h)))
      · exact hb (Or.inr (Or.inr (he'.symm.trans h)))
    rw [hnone, hnone]

/-! ## Pose narration -/

section PoseLemmas

variable {α : Type} [LinearOrderedField α]

/-- For a pose that is present, `describePose` joins the phrases of `poseDescriptions`, and
returns "standing" when there is none. -/
theorem describePose_some (pose : Pose α) :
    describePose (some pose) =
      if (poseDescriptions pose).length > 0 then ", ".intercalate (poseDescriptions pose)
      else "standing" :=
  rfl

/-- Membership in a conditional list. -/
theorem mem_ite_list {c : Prop} [Decidable c] {x : String} {l₁ l₂ : List String} :
    x ∈ (if c then l₁ else l₂) ↔ (c ∧ x ∈ l₁) ∨ (¬ c ∧ x ∈ l₂) := by
  split_ifs with h <;> simp [h]

/-- A singleton of a conditional is a conditional of singletons. -/
theorem singleton_ite {c : Prop} [Decidable c] (a b : String) :
    [if c then a else b] = if c then [a] else [b] := by
  split_ifs <;> rfl

/-- The phrases of a pose, as eight groups in the order of the checks. -/
theorem poseDescriptions_eq (pose : Pose α) :
    poseDescriptions pose =
      (if jointAngle pose "l_arm" "raise" > 60 ∧ jointAngle pose "r_arm" "raise" > 60 then
          ["both arms raised"]
        else if jointAngle pose "l_arm" "raise" > 60 then ["left arm raised"]
        else if jointAngle pose "r_arm" "raise" > 60 then ["right arm raised"]
        else []) ++
      (if jointAngle pose "l_elbow" "bend" > 90 ∨ jointAngle pose "r_elbow" "bend" > 90 then
          ["arm bent at elbow"] else []) ++
      (if jointAngle pose "l_leg" "raise" > 30 ∨ jointAngle pose "r_leg" "raise" > 30 then
          ["leg lifted"] else []) ++
      (if jointAngle pose "l_knee" "bend" > 60 ∧ jointAngle pose "r_knee" "bend" > 60 then
          ["crouching"]
        else if jointAngle pose "l_knee" "bend" > 60 ∨ jointAngle pose "r_knee" "bend" > 60 then
          ["knee bent"]
        else []) ++
      (if |jointAngle pose "body" "bend"| > 20 then
          (if jointAngle pose "body" "bend" > 0 then ["leaning forward"] else ["leaning back"])
        else []) ++
      (if |jointAngle pose "body" "turn"| > 30 then ["torso turned"] else []) ++
      (if |jointAngle pose "head" "turn"| > 30 then ["head turned"] else []) ++
      (if jointAngle pose "head" "nod" > 20 then ["looking down"]
        else if jointAngle pose "head" "nod" < -20 then ["looking up"]
        else []) := by
  simp only [poseDescriptions, jointAngle, List.nil_append, singleton_ite, Bool.and_eq_true,
    Bool.or_eq_true, decide_eq_true_eq]

/-- The phrases of a pose are a sublist of the phrases in check order. -/
theorem poseDescriptions_sublist (pose : Pose α) :
    (poseDescriptions pose).Sublist posePhrases := by
  have hm : posePhrases =
      ["both arms raised", "left arm raised", "right arm raised"] ++ ["arm bent at elbow"] ++
        ["leg lifted"] ++ ["crouching", "knee bent"] ++ ["leaning forward", "leaning back"] ++
        ["torso turned"] ++ ["head turned"] ++ ["looking down", "looking up"] := rfl
  rw [poseDescriptions_eq, hm]
  refine ((((((List.Sublist.append ?_ ?_).append ?_).append ?_).append ?_).append ?_).append
    ?_).append ?_
  all_goals (split_ifs <;> decide)

/-- A bend beyond 20 in magnitude that is positive is a bend above 20. -/
theorem abs_gt_and_pos (b c : α) (hc : 0 ≤ c) : (|b| > c ∧ b > 0) ↔ b > c := by
  constructor
  · rintro ⟨h, hb⟩
    rwa [abs_of_pos hb] at h
  · intro h
    have hb : 0 < b := lt_of_le_of_lt hc h
    exact ⟨by rwa [abs_of_pos hb], hb⟩

/-- A bend beyond 20 in magnitude that is not positive is a bend below -20. -/
theorem abs_gt_and_not_pos (b c : α) (hc : 0 ≤ c) : (|b| > c ∧ ¬ b > 0) ↔ b < -c := by
  constructor
  · rintro ⟨h, hb⟩
    rw [abs_of_nonpos (not_lt.mp hb)] at h
    linarith
  · intro h
    have hb : b < 0 := by linarith
    exact ⟨by rw [abs_of_neg hb]; linarith, by linarith⟩

/-- Which phrases a pose emits: each phrase is among the descriptions exactly when its
condition on the joint angles holds. -/
theorem mem_poseDescriptions (pose : Pose α) :
    ("both arms raised" ∈ poseDescriptions pose ↔
      jointAngle pose "l_arm" "raise" > 60 ∧ jointAngle pose "r_arm" "raise" > 60) ∧
    ("left arm raised" ∈ poseDescriptions pose ↔
      jointAngle pose "l_arm" "raise" > 60 ∧ ¬ jointAngle pose "r_arm" "raise" > 60) ∧
    ("right arm raised" ∈ poseDescriptions pose ↔
      jointAngle pose "r_arm" "raise" > 60 ∧ ¬ jointAngle pose "l_arm" "raise" > 60) ∧
    ("arm bent at elbow" ∈ poseDescriptions pose ↔
      jointAngle pose "l_elbow" "bend" > 90 ∨ jointAngle pose "r_elbow" "bend" > 90) ∧
    ("leg lifted" ∈ poseDescriptions pose ↔
      jointAngle pose "l_leg" "raise" > 30 ∨ jointAngle pose "r_leg" "raise" > 30) ∧
    ("crouching" ∈ poseDescriptions pose ↔
      jointAngle pose "l_knee" "bend" > 60 ∧ jointAngle pose "r_knee" "bend" > 60) ∧
    ("knee bent" ∈ poseDescriptions pose ↔
      (jointAngle pose "l_knee" "bend" > 60 ∧ ¬ jointAngle pose "r_knee" "bend" > 60) ∨
        (¬ jointAngle pose "l_knee" "bend" > 60 ∧ jointAngle pose "r_knee" "bend" > 60)) ∧
    ("leaning forward" ∈ poseDescriptions pose ↔ jointAngle pose "body" "bend" > 20) ∧
    ("leaning back" ∈ poseDescriptions pose ↔ jointAngle pose "body" "bend" < -20) ∧
    ("torso turned" ∈ poseDescriptions pose ↔ |jointAngle pose "body" "turn"| > 30) ∧
    ("head turned" ∈ poseDescriptions pose ↔ |jointAngle pose "head" "turn"| > 30) ∧
    ("looking down" ∈ poseDescriptions pose ↔ jointAngle pose "head" "nod" > 20) ∧
    ("looking up" ∈ poseDescriptions pose ↔ jointAngle pose "head" "nod" < -20) := by
  have hf := abs_gt_and_pos (jointAngle pose "body" "bend") 20 (by norm_num)
  have hb := abs_gt_and_not_pos (jointAngle pose "body" "bend") 20 (by norm_num)
  rw [poseDescriptions_eq]
  refine ⟨?_, ?_, ?_, ?_, ?_, ?_, ?_, ?_, ?_, ?_, ?_, ?_, ?_⟩
  all_goals simp only [List.mem_append, mem_ite_list, List.mem_singleton, List.not_mem_nil]
  all_goals first
    | (simp; done)
    | (simp; try simp only [← not_lt]
       first | exact hf | exact hb | tauto | (intros; linarith))

/-- The joined string starts with the first character of its first piece. -/
theorem intercalate_go_head (s : String) (l : List String) (acc : String)
    (hacc : acc.data ≠ []) :
    (String.intercalate.go acc s l).data.head? = acc.data.head? := by
  induction l generalizing acc with
  | nil => rfl
  | cons a as ih =>
    have hne : (acc ++ s ++ a).data ≠ [] := by
      simp [String.data_append, hacc]
    rw [String.intercalate.go, ih _ hne]
    cases hd : acc.data with
    | nil => exact absurd hd hacc
    | cons c cs => simp [String.data_append, hd]

/-- No phrase is empty and none starts with the letter s. -/
theorem posePhrases_head :
    ∀ a ∈ posePhrases, a.data ≠ [] ∧ a.data.head? ≠ "standing".data.head? := by
  decide

/-- A non-empty list of phrases never joins to the word "standing". -/
theorem intercalate_ne_standing (l : List String) (hne : l ≠ [])
    (hl : ∀ a ∈ l, a ∈ posePhrases) : ", ".intercalate l ≠ "standing" := by
  cases l with
  | nil => exact absurd rfl hne
  | cons a as =>
    intro h
    obtain ⟨ha1, ha2⟩ := posePhrases_head a (hl a (List.mem_cons_self _ _))
    have hhead : (", ".intercalate (a :: as)).data.head? = a.data.head? :=
      intercalate_go_head ", " as a ha1
    rw [h] at hhead
    exact ha2 hhead.symm

/-- A pose is narrated as "standing" exactly when it emits no phrase. -/
theorem describePose_eq_standing_iff (pose : Pose α) :
    describePose (some pose) = "standing" ↔ poseDescriptions pose = [] := by
  rw [describePose_some]
  constructor
  · intro h
    by_contra hne
    have hpos : (poseDescriptions pose).length > 0 := List.length_pos.mpr hne
    rw [if_pos hpos] at h
    exact intercalate_ne_standing _ hne
      (fun a ha => (poseDescriptions_sublist pose).subset ha) h
  · intro h
    rw [h]
    rfl

/-- The result of `describePose` for a pose that is present, by whether any phrase fires. -/
theorem describePose_some_eq (pose : Pose α) :
    describePose (some pose) =
      if poseDescriptions pose = [] then "standing"
      else ", ".intercalate (poseDescriptions pose) := by
  rw [describePose_some]
  by_cases h : poseDescriptions pose = []
  · rw [if_pos h, h]
    rfl
  · rw [if_neg h, if_pos (List.length_pos.mpr h)]

/-- The joint angles of the pose that raises the left arm to `v` and sets nothing else. -/
theorem jointAngle_left_arm (v : α) (part angle : String) :
    jointAngle ([("l_arm", [("raise", v)])] : Pose α) part angle =
      if part = "l_arm" ∧ angle = "raise" then v else 0 := by
  by_cases hp : part = "l_arm"
  · by_cases ha : angle = "raise"
    · subst hp ha
      by_cases hv : v = 0 <;> simp [jointAngle, poseAngle, orZero, List.lookup, hv]
    · have hb : (angle == "raise") = false := beq_false_of_ne ha
      subst hp
      simp [jointAngle, poseAngle, orZero, List.lookup, ha, hb]
  · have hb : (part == "l_arm") = false := beq_false_of_ne hp
    simp [jointAngle, poseAngle, orZero, List.lookup, hp, hb]

/-- The phrases of the pose in which every check fires. -/
theorem poseDescriptions_firingPose :
    poseDescriptions (firingPose : Pose α) =
      ["both arms raised", "arm bent at elbow", "leg lifted", "crouching", "leaning forward",
        "torso turned", "head turned", "looking down"] := by
  rw [poseDescriptions_eq]
  simp [jointAngle, poseAngle, orZero, firingPose, List.lookup]
  norm_num

/-- C12: for a pose in which neither arm's raise angle exceeds 60 in magnitude (absent joints
read as 0), `describePose` returns the phrases whose condition fires, joined by ", ", and no arm
phrase: "arm bent at elbow" iff either elbow bend > 90; "leg lifted" iff either leg raise > 30;
"crouching" iff both knee bends > 60 and "knee bent" iff exactly one is; "leaning forward" iff
body bend > 20 and "leaning back" iff body bend < -20; "torso turned" iff |body turn| > 30;
"head turned" iff |head turn| > 30; "looking down" iff head nod > 20 and "looking up" iff head
nod < -20.  It returns "standing" exactly when none fires, in particular for an absent pose and
for the empty pose. -/
theorem describePose_phrases (pose : Pose α)
    (hl : |jointAngle pose "l_arm" "raise"| ≤ 60) (hr : |jointAngle pose "r_arm" "raise"| ≤ 60) :
    describePose (some pose) =
      (if poseDescriptions pose = [] then "standing"
       else ", ".intercalate (poseDescriptions pose)) ∧
    (∀ phrase ∈ poseDescriptions pose, phrase ∈
      ["arm bent at elbow", "leg lifted", "crouching", "knee bent", "leaning forward",
        "leaning back", "torso turned", "head turned", "looking down", "looking up"]) ∧
    ("arm bent at elbow" ∈ poseDescriptions pose ↔
      jointAngle pose "l_elbow" "bend" > 90 ∨ jointAngle pose "r_elbow" "bend" > 90) ∧
    ("leg lifted" ∈ poseDescriptions pose ↔
      jointAngle pose "l_leg" "raise" > 30 ∨ jointAngle pose "r_leg" "raise" > 30) ∧
    ("crouching" ∈ poseDescriptions pose ↔
      jointAngle pose "l_knee" "bend" > 60 ∧ jointAngle pose "r_knee" "bend" > 60) ∧
    ("knee bent" ∈ poseDescriptions pose ↔
      (jointAngle pose "l_knee" "bend" > 60 ∧ ¬ jointAngle pose "r_knee" "bend" > 60) ∨
        (¬ jointAngle pose "l_knee" "bend" > 60 ∧ jointAngle pose "r_knee" "bend" > 60)) ∧
    ("leaning forward" ∈ poseDescriptions pose ↔ jointAngle pose "body" "bend" > 20) ∧
    ("leaning back" ∈ poseDescriptions pose ↔ jointAngle pose "body" "bend" < -20) ∧
    ("torso turned" ∈ poseDescriptions pose ↔ |jointAngle pose "body" "turn"| > 30) ∧
    ("head turned" ∈ poseDescriptions pose ↔ |jointAngle pose "head" "turn"| > 30) ∧
    ("looking down" ∈ poseDescriptions pose ↔ jointAngle pose "head" "nod" > 20) ∧
    ("looking up" ∈ poseDescriptions pose ↔ jointAngle pose "head" "nod" < -20) ∧
    (describePose (some pose) = "standing" ↔
      ¬ (jointAngle pose "l_elbow" "bend" > 90 ∨ jointAngle pose "r_elbow" "bend" > 90) ∧
      ¬ (jointAngle pose "l_leg" "raise" > 30 ∨ jointAngle pose "r_leg" "raise" > 30) ∧
      ¬ (jointAngle pose "l_knee" "bend" > 60 ∨ jointAngle pose "r_knee" "bend" > 60) ∧
      ¬ jointAngle pose "body" "bend" > 20 ∧ ¬ jointAngle pose "body" "bend" < -20 ∧
      ¬ |jointAngle pose "body" "turn"| > 30 ∧ ¬ |jointAngle pose "head" "turn"| > 30 ∧
      ¬ jointAngle pose "head" "nod" > 20 ∧ ¬ jointAngle pose "head" "nod" < -20) ∧
    describePose (none : Option (Pose α)) = "standing" ∧
    describePose (some ([] : Pose α)) = "standing" := by
  obtain ⟨hboth, hleft, hright, helbow, hleg, hcrouch, hknee, hfwd, hback, htorso, hhead, hdown,
    hup⟩ := mem_poseDescriptions pose
  have hl' : ¬ jointAngle pose "l_arm" "raise" > 60 := not_lt.mpr (le_trans (le_abs_self _) hl)
  have hr' : ¬ jointAngle pose "r_arm" "raise" > 60 := not_lt.mpr (le_trans (le_abs_self _) hr)
  have hmem : ∀ phrase ∈ poseDescriptions pose, phrase ∈
      ["arm bent at elbow", "leg lifted", "crouching", "knee bent", "leaning forward",
        "leaning back", "torso turned", "head turned", "looking down", "looking up"] := by
    intro phrase hp
    have hall := (poseDescriptions_sublist pose).subset hp
    simp only [posePhrases, List.mem_cons, List.mem_singleton, List.not_mem_nil, or_false]
      at hall ⊢
    rcases hall with h | h | h | h
    · subst h; exact absurd (hboth.mp hp).1 hl'
    · subst h; exact absurd (hleft.mp hp).1 hl'
    · subst h; exact absurd (hright.mp hp).1 hr'
    · exact h
  refine ⟨describePose_some_eq pose, hmem, helbow, hleg, hcrouch, hknee, hfwd, hback, htorso,
    hhead, hdown, hup, ?_, rfl, ?_⟩
  · rw [describePose_eq_standing_iff, List.eq_nil_iff_forall_not_mem]
    constructor
    · intro h
      refine ⟨fun hc => h _ (helbow.mpr hc), fun hc => h _ (hleg.mpr hc), ?_,
        fun hc => h _ (hfwd.mpr hc), fun hc => h _ (hback.mpr hc),
        fun hc => h _ (htorso.mpr hc), fun hc => h _ (hhead.mpr hc),
        fun hc => h _ (hdown.mpr hc), fun hc => h _ (hup.mpr hc)⟩
      intro hc
      by_cases h1 : jointAngle pose "l_knee" "bend" > 60
      · by_cases h2 : jointAngle pose "r_knee" "bend" > 60
        · exact h _ (hcrouch.mpr ⟨h1, h2⟩)
        · exact h _ (hknee.mpr (Or.inl ⟨h1, h2⟩))
      · rcases hc with hc | hc
        · exact h1 hc
        · exact h _ (hknee.mpr (Or.inr ⟨h1, hc⟩))
    · rintro ⟨h1, h2, h3, h4, h5, h6, h7, h8, h9⟩ phrase hp
      have hten := hmem phrase hp
      simp only [List.mem_cons, List.mem_singleton, List.not_mem_nil, or_false] at hten
      rcases hten with h | h | h | h | h | h | h | h | h | h <;> subst h
      · exact h1 (helbow.mp hp)
      · exact h2 (hleg.mp hp)
      · exact h3 (Or.inl (hcrouch.mp hp).1)
      · rcases hknee.mp hp with hk | hk
        · exact h3 (Or.inl hk.1)
        · exact h3 (Or.inr hk.2)
      · exact h4 (hfwd.mp hp)
      · exact h5 (hback.mp hp)
      · exact h6 (htorso.mp hp)
      · exact h7 (hhead.mp hp)
      · exact h8 (hdown.mp hp)
      · exact h9 (hup.mp hp)
  · rw [describePose_some_eq]
    have he : poseDescriptions ([] : Pose α) = [] := by
      rw [poseDescriptions_eq]
      simp [jointAngle, poseAngle, orZero]
      norm_num
    rw [if_pos he]

/-- C12 (instance): the pose with the left knee bent to 90 and the head nodded to -30 has no
arm raised, and the theorem applies to it. -/
theorem describePose_phrases_witness :
    |jointAngle ([("l_knee", [("bend", 90)]), ("head", [("nod", -30)])] : Pose ℚ)
      "l_arm" "raise"| ≤ 60 ∧
    |jointAngle ([("l_knee", [("bend", 90)]), ("head", [("nod", -30)])] : Pose ℚ)
      "r_arm" "raise"| ≤ 60 ∧
    describePose (some ([("l_knee", [("bend", 90)]), ("head", [("nod", -30)])] : Pose ℚ)) =
      (if poseDescriptions ([("l_knee", [("bend", 90)]), ("head", [("nod", -30)])] : Pose ℚ) = []
       then "standing"
       else ", ".intercalate
        (poseDescriptions ([("l_knee", [("bend", 90)]), ("head", [("nod", -30)])] : Pose ℚ))) ∧
    ("crouching" ∈
        poseDescriptions ([("l_knee", [("bend", 90)]), ("head", [("nod", -30)])] : Pose ℚ) ↔
      jointAngle ([("l_knee", [("bend", 90)]), ("head", [("nod", -30)])] : Pose ℚ)
          "l_knee" "bend" > 60 ∧
        jointAngle ([("l_knee", [("bend", 90)]), ("head", [("nod", -30)])] : Pose ℚ)
          "r_knee" "bend" > 60) ∧
    describePose (some ([("l_knee", [("bend", 90)]), ("head", [("nod", -30)])] : Pose ℚ)) =
      "knee bent, looking up" :=
  have h := describePose_phrases
    ([("l_knee", [("bend", 90)]), ("head", [("nod", -30)])] : Pose ℚ) (by decide) (by decide)
  ⟨by decide, by decide, h.1, h.2.2.2.2.1, by decide⟩

/-- C13 (as amended): `describePose` emits "both arms raised" iff the left and the right arm
raise angle both exceed 60, "left arm raised" iff only the left one does and "right arm raised"
iff only the right one does; the comparison is signed, so a raise of 90 counts as raised and a
raise of -90 does not. -/
theorem describePose_arms (pose : Pose α) :
    describePose (some pose) =
      (if poseDescriptions pose = [] then "standing"
       else ", ".intercalate (poseDescriptions pose)) ∧
    ("both arms raised" ∈ poseDescriptions pose ↔
      jointAngle pose "l_arm" "raise" > 60 ∧ jointAngle pose "r_arm" "raise" > 60) ∧
    ("left arm raised" ∈ poseDescriptions pose ↔
      jointAngle pose "l_arm" "raise" > 60 ∧ ¬ jointAngle pose "r_arm" "raise" > 60) ∧
    ("right arm raised" ∈ poseDescriptions pose ↔
      jointAngle pose "r_arm" "raise" > 60 ∧ ¬ jointAngle pose "l_arm" "raise" > 60) ∧
    describePose (some ([("l_arm", [("raise", 90)])] : Pose α)) = "left arm raised" ∧
    describePose (some ([("l_arm", [("raise", -90)])] : Pose α)) = "standing" := by
  obtain ⟨hboth, hleft, hright, _⟩ := mem_poseDescriptions pose
  refine ⟨describePose_some_eq pose, hboth, hleft, hright, ?_, ?_⟩
  · have he : poseDescriptions ([("l_arm", [("raise", 90)])] : Pose α) = ["left arm raised"] := by
      rw [poseDescriptions_eq]
      simp [jointAngle_left_arm]
      norm_num
    rw [describePose_some_eq, he]
    decide
  · have he : poseDescriptions ([("l_arm", [("raise", -90)])] : Pose α) = [] := by
      rw [poseDescriptions_eq]
      simp [jointAngle_left_arm]
      norm_num
    rw [describePose_some_eq, if_pos he]

end PoseLemmas

/-- C13 (the claim as stated fails): in the pose whose only entry is a left arm raise of -90,
the magnitude of the left arm's raise exceeds 60 and that of the right arm's does not, yet
"left arm raised" is not emitted and the pose is narrated as "standing". -/
theorem describePose_left_arm_minus_ninety :
    |jointAngle ([("l_arm", [("raise", -90)])] : Pose ℝ) "l_arm" "raise"| > 60 ∧
    ¬ |jointAngle ([("l_arm", [("raise", -90)])] : Pose ℝ) "r_arm" "raise"| > 60 ∧
    "left arm raised" ∉ poseDescriptions ([("l_arm", [("raise", -90)])] : Pose ℝ) ∧
    describePose (some ([("l_arm", [("raise", -90)])] : Pose ℝ)) = "standing" := by
  have he : poseDescriptions ([("l_arm", [("raise", -90)])] : Pose ℝ) = [] := by
    rw [poseDescriptions_eq]
    simp [jointAngle_left_arm]
    norm_num
  refine ⟨?_, ?_, ?_, ?_⟩
  · rw [jointAngle_left_arm, if_pos ⟨rfl, rfl⟩]
    norm_num
  · have hne : ¬ ("r_arm" = "l_arm" ∧ "raise" = "raise") := by decide
    rw [jointAngle_left_arm, if_neg hne]
    norm_num
  · rw [he]
    exact List.not_mem_nil _
  · rw [describePose_some_eq, if_pos he]

section PoseOrder

variable {α : Type} [LinearOrderedField α]

/-- C14: the phrases in `describePose`'s result appear in the fixed check order, each at most
once; the result never contains both "leaning forward" and "leaning back", nor both
"looking down" and "looking up" (nor two arm phrases, nor both "crouching" and "knee bent");
phrases of different groups can appear together, and a pose firing every group yields all eight
phrases. -/
theorem describePose_order (pose : Pose α) :
    describePose (some pose) =
      (if poseDescriptions pose = [] then "standing"
       else ", ".intercalate (poseDescriptions pose)) ∧
    (poseDescriptions pose).Sublist
      ["both arms raised", "left arm raised", "right arm raised", "arm bent at elbow",
        "leg lifted", "crouching", "knee bent", "leaning forward", "leaning back",
        "torso turned", "head turned", "looking down", "looking up"] ∧
    (poseDescriptions pose).Nodup ∧
    ¬ ("leaning forward" ∈ poseDescriptions pose ∧ "leaning back" ∈ poseDescriptions pose) ∧
    ¬ ("looking down" ∈ poseDescriptions pose ∧ "looking up" ∈ poseDescriptions pose) ∧
    ¬ ("crouching" ∈ poseDescriptions pose ∧ "knee bent" ∈ poseDescriptions pose) ∧
    ¬ ("both arms raised" ∈ poseDescriptions pose ∧ "left arm raised" ∈ poseDescriptions pose) ∧
    ¬ ("both arms raised" ∈ poseDescriptions pose ∧
      "right arm raised" ∈ poseDescriptions pose) ∧
    ¬ ("left arm raised" ∈ poseDescriptions pose ∧ "right arm raised" ∈ poseDescriptions pose) ∧
    poseDescriptions (firingPose : Pose α) =
      ["both arms raised", "arm bent at elbow", "leg lifted", "crouching", "leaning forward",
        "torso turned", "head turned", "looking down"] ∧
    describePose (some (firingPose : Pose α)) =
      "both arms raised, arm bent at elbow, leg lifted, crouching, leaning forward, torso turned, head turned, looking down" := by
  obtain ⟨hboth, hleft, hright, _, _, hcrouch, hknee, hfwd, hback, _, _, hdown, hup⟩ :=
    mem_poseDescriptions pose
  refine ⟨describePose_some_eq pose, poseDescriptions_sublist pose,
    (poseDescriptions_sublist pose).nodup (by decide), ?_, ?_, ?_, ?_, ?_, ?_,
    poseDescriptions_firingPose, ?_⟩
  · rintro ⟨h1, h2⟩
    have := hfwd.mp h1
    have := hback.mp h2
    linarith
  · rintro ⟨h1, h2⟩
    have := hdown.mp h1
    have := hup.mp h2
    linarith
  · rintro ⟨h1, h2⟩
    obtain ⟨hk1, hk2⟩ := hcrouch.mp h1
    rcases hknee.mp h2 with hk | hk
    · exact hk.2 hk2
    · exact hk.1 hk1
  · rintro ⟨h1, h2⟩
    exact (hleft.mp h2).2 (hboth.mp h1).2
  · rintro ⟨h1, h2⟩
    exact (hright.mp h2).2 (hboth.mp h1).1
  · rintro ⟨h1, h2⟩
    exact (hleft.mp h1).2 (hright.mp h2).1
  · rw [describePose_some_eq, poseDescriptions_firingPose]
    decide

end PoseOrder

/-! ## Volumes and missing fields in the prompt -/

/-- The empty pose is narrated as "standing". -/
theorem describePose_nil {α : Type} [LinearOrderedField α] :
    describePose (some ([] : Pose α)) = "standing" := by
  have he : poseDescriptions ([] : Pose α) = [] := by
    rw [poseDescriptions_eq]
    simp [jointAngle, poseAngle, orZero]
    norm_num
  rw [describePose_some_eq, if_pos he]

/-- The yaw `generatePrompt` reads is the same for a missing rotation and for `[0, 0, 0]`. -/
theorem orZero_rotation_default (rotation : Option (Vec3 ℝ)) :
    orZero ((some (rotation.getD ⟨0, 0, 0⟩)).map Vec3.y) = orZero (rotation.map Vec3.y) := by
  cases rotation with
  | none => simp [orZero]
  | some r => rfl

/-- The pose phrase is the same for a missing pose and for the empty pose. -/
theorem describePose_default (pose : Option (Pose ℝ)) :
    describePose (some (pose.getD [])) = describePose pose := by
  cases pose with
  | none => exact describePose_nil
  | some p => rfl

/-- Filling in the missing optional fields does not change an entity's description. -/
theorem describeEntity_withDefaults [CaseMapping] (camera : Camera ℝ) (entity : Entity ℝ) :
    describeEntity camera (withDefaults entity) = describeEntity camera entity := by
  simp only [describeEntity, withDefaults, orZero_rotation_default, describePose_default]

/-- A map that keeps every position and every description keeps the prompt. -/
theorem generatePrompt_map [CaseMapping] (camera : Camera ℝ) (f : Entity ℝ → Entity ℝ)
    (hpos : ∀ e, (f e).position = e.position)
    (hdesc : ∀ e, describeEntity camera (f e) = describeEntity camera e)
    (entities : List (Entity ℝ)) :
    generatePrompt camera (entities.map f) = generatePrompt camera entities := by
  have hcmp : ∀ a ∈ entities, ∀ b ∈ entities,
      compareDepth camera a b ≤ 0 ↔ compareDepth camera (f a) (f b) ≤ 0 := by
    intro a _ b _
    simp only [compareDepth, hpos]
  have hsort : sortedEntities camera (entities.map f) = (sortedEntities camera entities).map f := by
    simp only [sortedEntities, jsSort]
    exact (List.map_insertionSort (fun a b => compareDepth camera a b ≤ 0)
      (fun a b => compareDepth camera a b ≤ 0) f entities hcmp).symm
  have hmap : (sortedEntities camera (entities.map f)).map (describeEntity camera) =
      (sortedEntities camera entities).map (describeEntity camera) := by
    rw [hsort, List.map_map]
    exact List.map_congr_left (fun e _ => hdesc e)
  simp only [generatePrompt, hmap]

/-- C15: missing optional fields do not change the outcome.  For every camera and entity, the
entity without a `rotation` field gets the same description as with rotation `[0, 0, 0]`, and
the entity without a `pose` field gets the same description as with the empty pose, whose phrase
is "standing"; and the whole prompt of an entity list is the prompt of the list with the missing
fields filled in. -/
theorem generatePrompt_missing_fields [CaseMapping] (camera : Camera ℝ) (entity : Entity ℝ)
    (entities : List (Entity ℝ)) :
    describeEntity camera { entity with rotation := none } =
      describeEntity camera { entity with rotation := some ⟨0, 0, 0⟩ } ∧
    describeEntity camera { entity with pose := none } =
      describeEntity camera { entity with pose := some [] } ∧
    (generatePrompt camera [{ entity with rotation := none }]).entities =
      (generatePrompt camera [{ entity with rotation := some ⟨0, 0, 0⟩ }]).entities ∧
    (generatePrompt camera [{ entity with pose := none }]).entities =
      (generatePrompt camera [{ entity with pose := some [] }]).entities ∧
    describePose (none : Option (Pose ℝ)) = "standing" ∧
    describePose (some ([] : Pose ℝ)) = "standing" ∧
    generatePrompt camera (entities.map withDefaults) = generatePrompt camera entities := by
  have hrot : describeEntity camera { entity with rotation := none } =
      describeEntity camera { entity with rotation := some ⟨0, 0, 0⟩ } := by
    simp [describeEntity, orZero]
  have hpose : describeEntity camera { entity with pose := none } =
      describeEntity camera { entity with pose := some [] } := by
    simp only [describeEntity, describePose_nil]
    rfl
  refine ⟨hrot, hpose, ?_, ?_, rfl, describePose_nil, ?_⟩
  · simp only [generatePrompt, sortedEntities, jsSort, List.insertionSort, List.orderedInsert,
      List.map_cons, List.map_nil, hrot]
  · simp only [generatePrompt, sortedEntities, jsSort, List.insertionSort, List.orderedInsert,
      List.map_cons, List.map_nil, hpose]
  · exact generatePrompt_map camera withDefaults (fun _ => rfl)
      (describeEntity_withDefaults camera) entities

/-- The facing the prompt gives an entity without `rotation`, straight ahead of the camera. -/
theorem describeFacing_ahead (r : ℝ) (cameraY entityY : ℝ) :
    angleDiff r ⟨0, cameraY, 5⟩ ⟨0, entityY, 0⟩ =
      if |0 - r| > Real.pi then 2 * Real.pi - |0 - r| else |0 - r| := by
  have hb : atan2 (0 - 0) (5 - 0) = 0 := by
    rw [sub_zero, sub_zero]; exact atan2_zero_pos (by norm_num)
  simp only [angleDiff, toCameraAngle, hb]

/-- C11 (evaluation at a failing input): `generatePrompt` computes the facing phrase of an
entity without `rotation` at yaw 0, whatever its `facing`.  Two volumes at `[0, 0.5, 0]` with
`facing` 0 and 180, seen by the camera at `[0, 1.6, 5]`, both get "facing camera", although the
Y rotation the renderer applies to the second is π, for which `describeFacing` gives
"facing away". -/
theorem describeEntity_volume_ignores_facing [CaseMapping] :
    (∀ (camera : Camera ℝ) (entity : Entity ℝ) (f g : Option ℝ),
      describeEntity camera { entity with rotation := none, facing := f } =
        describeEntity camera { entity with rotation := none, facing := g }) ∧
    (addedVolume 1 0 : Entity ℝ).rotation = none ∧
    (addedVolume 1 0 : Entity ℝ).facing = some 0 ∧
    describeEntity ⟨⟨0, 1.6, 5⟩, ⟨0, 0, 0⟩, 50⟩
      { (addedVolume 1 0 : Entity ℝ) with position := ⟨0, 0.5, 0⟩, facing := some 0 } =
        "In the midground, object 1 facing camera" ∧
    describeEntity ⟨⟨0, 1.6, 5⟩, ⟨0, 0, 0⟩, 50⟩
      { (addedVolume 2 1 : Entity ℝ) with position := ⟨0, 0.5, 0⟩, facing := some 180 } =
        "In the midground, object 2 facing camera" ∧
    (volumeRotation (some 0)).y = 0 ∧
    (volumeRotation (some 180)).y = Real.pi ∧
    describeFacing (volumeRotation (some 0)).y ⟨0, 1.6, 5⟩ ⟨0, 0.5, 0⟩ = "facing camera" ∧
    describeFacing (volumeRotation (some 180)).y ⟨0, 1.6, 5⟩ ⟨0, 0.5, 0⟩ = "facing away" := by
  have hpi := Real.pi_pos
  have h0 : (volumeRotation (some 0)).y = 0 := by
    simp [volumeRotation, degToRad]
  have h180 : (volumeRotation (some 180)).y = Real.pi := by
    simp only [volumeRotation, degToRad, Option.getD_some]
    ring
  have hd0 : angleDiff 0 ⟨0, 1.6, 5⟩ ⟨0, 0.5, 0⟩ = 0 := by
    rw [describeFacing_ahead, sub_zero, abs_zero, if_neg (by linarith)]
  have hdpi : angleDiff Real.pi ⟨0, 1.6, 5⟩ ⟨0, 0.5, 0⟩ = Real.pi := by
    rw [describeFacing_ahead, zero_sub, abs_neg, abs_of_pos hpi, if_neg (lt_irrefl _)]
  have hf0 : describeFacing 0 ⟨0, 1.6, 5⟩ ⟨0, 0.5, 0⟩ = "facing camera" := by
    simp only [describeFacing, hd0]
    rw [if_pos (by linarith)]
  have hfpi : describeFacing Real.pi ⟨0, 1.6, 5⟩ ⟨0, 0.5, 0⟩ = "facing away" := by
    simp only [describeFacing, hdpi]
    rw [if_neg (by linarith), if_pos (by linarith)]
  have hdepth : describeDepth (0 : ℝ) 5 = "midground" := describeDepth_zero_five
  have hl1 : toLowerCase (orDefault (some ("Object " ++ toString (0 + 1))) "object") =
      "object 1" := by
    rw [show orDefault (some ("Object " ++ toString (0 + 1))) "object" = "Object 1" by decide,
      toLowerCase_ascii _ (by decide)]
    decide
  have hl2 : toLowerCase (orDefault (some ("Object " ++ toString (1 + 1))) "object") =
      "object 2" := by
    rw [show orDefault (some ("Object " ++ toString (1 + 1))) "object" = "Object 2" by decide,
      toLowerCase_ascii _ (by decide)]
    decide
  have hz : orZero ((none : Option (Vec3 ℝ)).map Vec3.y) = 0 := rfl
  have ht : ¬ ("volume" = "human") := by decide
  refine ⟨fun camera entity f g => rfl, rfl, rfl, ?_, ?_, h0, h180, ?_, ?_⟩
  · simp only [describeEntity, addedVolume, hz, hdepth, hf0, hl1, if_neg ht]
    decide
  · simp only [describeEntity, addedVolume, hz, hdepth, hf0, hl2, if_neg ht]
    decide
  · rw [h0]; exact hf0
  · rw [h180]; exact hfpi

/-! ## The store -/

section StoreLemmas

variable {α : Type}

/-- The ids of the collection after `addEntity`: the old ids, then the clock reading. -/
theorem addEntity_ids (now : Nat) (state : SceneState α) (payload : EntityPayload α) :
    (addEntity now state payload).entities.map Entity.id =
      state.entities.map Entity.id ++ [now] := by
  simp [addEntity, sceneReducer, newEntity]

/-- Removing an id that no entity has keeps the entity list. -/
theorem filter_id_ne_of_absent (entities : List (Entity α)) (id : Nat)
    (h : ∀ e ∈ entities, e.id ≠ id) :
    entities.filter (fun e => decide (e.id ≠ id)) = entities := by
  rw [List.filter_eq_self]
  intro e he
  exact decide_eq_true (h e he)

/-- C16 (evaluation at a failing input): the id `addEntity` gives is the clock reading and
nothing else.  Two humans added from the initial state at the same clock reading get the same
id, so the second id is not new, the ids of the collection are not distinct, and removing
that id removes both entities. -/
theorem addEntity_same_clock_reading (now : Nat) :
    (∀ (state : SceneState ℝ) (payload : EntityPayload ℝ),
      (addEntity now state payload).entities.map Entity.id =
        state.entities.map Entity.id ++ [now]) ∧
    (handleAddHuman now (handleAddHuman now (initialState : SceneState ℝ))).entities.map
      Entity.id = [now, now] ∧
    (handleAddHuman now (handleAddHuman now (initialState : SceneState ℝ))).entities.map
      Entity.label = [some "Person 1", some "Person 2"] ∧
    ¬ ((handleAddHuman now (handleAddHuman now (initialState : SceneState ℝ))).entities.map
      Entity.id).Nodup ∧
    (removeEntity now (handleAddHuman now (handleAddHuman now (initialState : SceneState ℝ)))
      now).entities = [] := by
  refine ⟨fun state payload => addEntity_ids now state payload, ?_, ?_, ?_, ?_⟩
  · simp [handleAddHuman, addEntity, sceneReducer, newEntity, initialState]
  · simp only [handleAddHuman, addEntity, sceneReducer, newEntity, initialState, humanPayload,
      List.nil_append, List.map_cons, List.map_nil, List.cons_append, List.filter_nil,
      List.filter_cons, List.length_nil, List.length_cons, decide_True, if_true]
    decide
  · simp [handleAddHuman, addEntity, sceneReducer, newEntity, initialState]
  · simp [removeEntity, handleAddHuman, addEntity, sceneReducer, newEntity, initialState]

/-- C17: `addEntity` returns a state whose entity list is the old list, in the same order, with
one new entity appended at the end that carries every field of the payload; the selection and
the camera are unchanged. -/
theorem addEntity_appends (now : Nat) (state : SceneState α) (payload : EntityPayload α) :
    (addEntity now state payload).entities = state.entities ++ [newEntity now payload] ∧
    (addEntity now state payload).entities.length = state.entities.length + 1 ∧
    (addEntity now state payload).entities.take state.entities.length = state.entities ∧
    (addEntity now state payload).entities.getLast? = some (newEntity now payload) ∧
    (newEntity now payload).type = payload.type ∧
    (newEntity now payload).label = payload.label ∧
    (newEntity now payload).position = payload.position ∧
    (newEntity now payload).rotation = payload.rotation ∧
    (newEntity now payload).pose = payload.pose ∧
    (newEntity now payload).shape = payload.shape ∧
    (newEntity now payload).dimensions = payload.dimensions ∧
    (newEntity now payload).showBeak = payload.showBeak ∧
    (newEntity now payload).facing = payload.facing ∧
    (addEntity now state payload).selectedEntityId = state.selectedEntityId ∧
    (addEntity now state payload).directorCamera = state.directorCamera := by
  refine ⟨rfl, ?_, ?_, ?_, rfl, rfl, rfl, rfl, rfl, rfl, rfl, rfl, rfl, rfl, rfl⟩
  · simp [addEntity, sceneReducer]
  · simp [addEntity, sceneReducer]
  · simp [addEntity, sceneReducer]

/-- C18: `updateEntity(id, fields)` replaces each entity whose id is `id` by its top-level
merge with `fields` (a supplied field, `pose` and `dimensions` included, replaces the old value
whole; a field that is not supplied keeps the old value) and leaves every other entity as it
is; the ids, the order and the length of the entity list, the selection and the camera are
unchanged, and when no entity has the id the state is unchanged. -/
theorem updateEntity_merges (now : Nat) (state : SceneState α) (id : Nat)
    (fields : EntityUpdate α) :
    (updateEntity now state id fields).entities =
      state.entities.map (fun e => if e.id = id then mergeEntity e id fields else e) ∧
    (∀ e : Entity α,
      (mergeEntity e id fields).id = id ∧
      (mergeEntity e id fields).type = (match fields.type with | some v => v | none => e.type) ∧
      (mergeEntity e id fields).label =
        (match fields.label with | some v => v | none => e.label) ∧
      (mergeEntity e id fields).position =
        (match fields.position with | some v => v | none => e.position) ∧
      (mergeEntity e id fields).rotation =
        (match fields.rotation with | some v => v | none => e.rotation) ∧
      (mergeEntity e id fields).pose =
        (match fields.pose with | some v => v | none => e.pose) ∧
      (mergeEntity e id fields).shape =
        (match fields.shape with | some v => v | none => e.shape) ∧
      (mergeEntity e id fields).dimensions =
        (match fields.dimensions with | some v => v | none => e.dimensions) ∧
      (mergeEntity e id fields).showBeak =
        (match fields.showBeak with | some v => v | none => e.showBeak) ∧
      (mergeEntity e id fields).facing =
        (match fields.facing with | some v => v | none => e.facing)) ∧
    (updateEntity now state id fields).entities.map Entity.id =
      state.entities.map Entity.id ∧
    (updateEntity now state id fields).entities.length = state.entities.length ∧
    (updateEntity now state id fields).selectedEntityId = state.selectedEntityId ∧
    (updateEntity now state id fields).directorCamera = state.directorCamera ∧
    ((∀ e ∈ state.entities, e.id ≠ id) → updateEntity now state id fields = state) := by
  refine ⟨rfl, ?_, ?_, ?_, rfl, rfl, ?_⟩
  · intro e
    refine ⟨rfl, ?_, ?_, ?_, ?_, ?_, ?_, ?_, ?_, ?_⟩
    · cases h : fields.type <;> simp [mergeEntity, h]
    · cases h : fields.label <;> simp [mergeEntity, h]
    · cases h : fields.position <;> simp [mergeEntity, h]
    · cases h : fields.rotation <;> simp [mergeEntity, h]
    · cases h : fields.pose <;> simp [mergeEntity, h]
    · cases h : fields.shape <;> simp [mergeEntity, h]
    · cases h : fields.dimensions <;> simp [mergeEntity, h]
    · cases h : fields.showBeak <;> simp [mergeEntity, h]
    · cases h : fields.facing <;> simp [mergeEntity, h]
  · simp only [updateEntity, sceneReducer, List.map_map]
    apply List.map_congr_left
    intro e _
    by_cases h : e.id = id
    · simp [h, mergeEntity]
    · simp [h]
  · simp [updateEntity, sceneReducer]
  · intro h
    have hmap : state.entities.map
        (fun e => if e.id = id then mergeEntity e id fields else e) = state.entities := by
      conv_rhs => rw [← List.map_id state.entities]
      apply List.map_congr_left
      intro e he
      simp [h e he]
    simp only [updateEntity, sceneReducer, hmap]

/-- C19: `removeEntity(id)` returns a state whose entity list is the old list without the
entities of that id, the rest in their original order; the selection is null when the removed
id was the selected id and is the old selection otherwise; the camera is unchanged. -/
theorem removeEntity_filters (now : Nat) (state : SceneState α) (id : Nat) :
    (removeEntity now state id).entities =
      state.entities.filter (fun e => decide (e.id ≠ id)) ∧
    (∀ e : Entity α,
      e ∈ (removeEntity now state id).entities ↔ e ∈ state.entities ∧ e.id ≠ id) ∧
    (removeEntity now state id).entities.Sublist state.entities ∧
    (removeEntity now state id).selectedEntityId =
      (if state.selectedEntityId = some id then none else state.selectedEntityId) ∧
    (state.selectedEntityId = some id → (removeEntity now state id).selectedEntityId = none) ∧
    (state.selectedEntityId ≠ some id →
      (removeEntity now state id).selectedEntityId = state.selectedEntityId) ∧
    (removeEntity now state id).directorCamera = state.directorCamera := by
  refine ⟨rfl, ?_, ?_, rfl, ?_, ?_, rfl⟩
  · intro e
    simp [removeEntity, sceneReducer, List.mem_filter]
  · exact List.filter_sublist _
  · intro h
    simp [removeEntity, sceneReducer, h]
  · intro h
    simp [removeEntity, sceneReducer, h]

/-- C20 (as amended): for an id that no entity in the collection has, `removeEntity(id)`
leaves the entities and the camera unchanged; the selection is unchanged too, and so is the
whole state, unless the selection is that very id, in which case the selection is cleared. -/
theorem removeEntity_absent (now : Nat) (state : SceneState α) (id : Nat)
    (h : ∀ e ∈ state.entities, e.id ≠ id) :
    (removeEntity now state id).entities = state.entities ∧
    (removeEntity now state id).directorCamera = state.directorCamera ∧
    (removeEntity now state id).selectedEntityId =
      (if state.selectedEntityId = some id then none else state.selectedEntityId) ∧
    (state.selectedEntityId ≠ some id → removeEntity now state id = state) := by
  have hent : (removeEntity now state id).entities = state.entities :=
    filter_id_ne_of_absent state.entities id h
  refine ⟨hent, rfl, rfl, ?_⟩
  intro hsel
  have hf := filter_id_ne_of_absent state.entities id h
  simp only [removeEntity, sceneReducer, hf, if_neg hsel]

end StoreLemmas

/-- C20 (instance): the state holding one human with id 5 has no entity with id 9, and the
theorem applies to it. -/
theorem removeEntity_absent_witness :
    (∀ e ∈ (addEntity 5 (initialState : SceneState ℝ) (humanPayload [])).entities, e.id ≠ 9) ∧
    (removeEntity 6 (addEntity 5 (initialState : SceneState ℝ) (humanPayload [])) 9).entities =
      (addEntity 5 (initialState : SceneState ℝ) (humanPayload [])).entities ∧
    (removeEntity 6 (addEntity 5 (initialState : SceneState ℝ) (humanPayload []))
      9).directorCamera =
        (addEntity 5 (initialState : SceneState ℝ) (humanPayload [])).directorCamera :=
  have h : ∀ e ∈ (addEntity 5 (initialState : SceneState ℝ) (humanPayload [])).entities,
      e.id ≠ 9 := by
    simp [addEntity, sceneReducer, newEntity, initialState]
  ⟨h, (removeEntity_absent 6 _ 9 h).1, (removeEntity_absent 6 _ 9 h).2.1⟩

/-- C20 (the claim as stated fails): after `selectEntity(7)` on the initial state no entity has
id 7, yet `removeEntity(7)` changes the state: it clears the selection. -/
theorem removeEntity_clears_dangling_selection :
    (∀ e ∈ (selectEntity 0 (initialState : SceneState ℝ) (some 7)).entities, e.id ≠ 7) ∧
    (selectEntity 0 (initialState : SceneState ℝ) (some 7)).selectedEntityId = some 7 ∧
    (removeEntity 1 (selectEntity 0 (initialState : SceneState ℝ) (some 7)) 7).selectedEntityId =
      none ∧
    (removeEntity 1 (selectEntity 0 (initialState : SceneState ℝ) (some 7)) 7).selectedEntityId ≠
      (selectEntity 0 (initialState : SceneState ℝ) (some 7)).selectedEntityId := by
  refine ⟨?_, rfl, ?_, ?_⟩
  · simp [selectEntity, sceneReducer, initialState]
  · simp [removeEntity, selectEntity, sceneReducer]
  · simp [removeEntity, selectEntity, sceneReducer]

/-! ## The camera in the store -/

/-- C21: `updateCamera` returns a state whose camera has each supplied field set to exactly the
supplied value, with no clamping (fov 500 and position y -3 are stored as given), every field
that is not supplied unchanged, and the entities and the selection unchanged. -/
theorem updateCamera_merges {α : Type} [LinearOrderedField α] (now : Nat)
    (state : SceneState α) (updates : CameraUpdate α) :
    (updateCamera now state updates).directorCamera.position =
      (match updates.position with
       | some v => v
       | none => state.directorCamera.position) ∧
    (updateCamera now state updates).directorCamera.rotation =
      (match updates.rotation with
       | some v => v
       | none => state.directorCamera.rotation) ∧
    (updateCamera now state updates).directorCamera.fov =
      (match updates.fov with
       | some v => v
       | none => state.directorCamera.fov) ∧
    (updateCamera now state updates).entities = state.entities ∧
    (updateCamera now state updates).selectedEntityId = state.selectedEntityId ∧
    (setFov now state 500).directorCamera.fov = 500 ∧
    (setFov now state 500).directorCamera.position = state.directorCamera.position ∧
    (setFov now state 500).directorCamera.rotation = state.directorCamera.rotation ∧
    (setPosition now state ⟨0, -3, 5⟩).directorCamera.position = ⟨0, -3, 5⟩ ∧
    (setPosition now state ⟨0, -3, 5⟩).directorCamera.rotation =
      state.directorCamera.rotation ∧
    (setPosition now state ⟨0, -3, 5⟩).directorCamera.fov = state.directorCamera.fov ∧
    (setRotation now state ⟨7, 8, 9⟩).directorCamera.rotation = ⟨7, 8, 9⟩ := by
  refine ⟨?_, ?_, ?_, rfl, rfl, rfl, rfl, rfl, rfl, rfl, rfl, rfl⟩
  · cases h : updates.position <;> simp [updateCamera, sceneReducer, mergeCamera, h]
  · cases h : updates.rotation <;> simp [updateCamera, sceneReducer, mergeCamera, h]
  · cases h : updates.fov <;> simp [updateCamera, sceneReducer, mergeCamera, h]

/-! ## Wideness of the shot types -/

/-- The rank of the shot type of a field of view. -/
theorem shotRank_classifyShot (fov : ℝ) :
    shotRank (classifyShot fov) =
      if fov < 25 then 0 else if fov < 35 then 1 else if fov < 50 then 2
      else if fov < 65 then 3 else if fov < 80 then 4 else if fov < 100 then 5 else 6 := by
  unfold classifyShot
  split_ifs <;> decide

/-- The rank of the shot type does not decrease when the field of view grows. -/
theorem shotRank_mono (fov₁ fov₂ : ℝ) (h : fov₁ ≤ fov₂) :
    shotRank (classifyShot fov₁) ≤ shotRank (classifyShot fov₂) := by
  rw [shotRank_classifyShot, shotRank_classifyShot]
  split_ifs <;> first | omega | (exfalso; linarith)

/-- C28: `classifyShot` is monotone non-decreasing in wideness: with the labels ranked
extreme close-up < close-up < medium close-up < medium shot < medium wide shot < wide shot <
extreme wide shot, `fov₁ ≤ fov₂` gives rank of `classifyShot fov₁` ≤ rank of
`classifyShot fov₂`, and each of the seven labels is attained for some fov in [15, 120]. -/
theorem classifyShot_monotone (fov₁ fov₂ : ℝ) (h : fov₁ ≤ fov₂) :
    shotRank (classifyShot fov₁) ≤ shotRank (classifyShot fov₂) ∧
    (shotRank "extreme close-up" = 0 ∧ shotRank "close-up" = 1 ∧ shotRank "medium close-up" = 2 ∧
      shotRank "medium shot" = 3 ∧ shotRank "medium wide shot" = 4 ∧ shotRank "wide shot" = 5 ∧
      shotRank "extreme wide shot" = 6) ∧
    (∀ label ∈ shotLabels, ∃ fov : ℝ, 15 ≤ fov ∧ fov ≤ 120 ∧ classifyShot fov = label) := by
  refine ⟨shotRank_mono fov₁ fov₂ h, by decide, ?_⟩
  intro label hl
  simp only [shotLabels, List.mem_cons, List.mem_singleton, List.not_mem_nil, or_false] at hl
  rcases hl with h | h | h | h | h | h | h <;> subst h
  · exact ⟨15, by norm_num, by norm_num, by unfold classifyShot; norm_num⟩
  · exact ⟨30, by norm_num, by norm_num, by unfold classifyShot; norm_num⟩
  · exact ⟨40, by norm_num, by norm_num, by unfold classifyShot; norm_num⟩
  · exact ⟨50, by norm_num, by norm_num, by unfold classifyShot; norm_num⟩
  · exact ⟨70, by norm_num, by norm_num, by unfold classifyShot; norm_num⟩
  · exact ⟨90, by norm_num, by norm_num, by unfold classifyShot; norm_num⟩
  · exact ⟨120, by norm_num, by norm_num, by unfold classifyShot; norm_num⟩

/-- C28 (instance): fov 30 is at most fov 70, and the theorem applies: a close-up ranks below
a medium wide shot. -/
theorem classifyShot_monotone_witness :
    (30 : ℝ) ≤ 70 ∧ shotRank (classifyShot (30 : ℝ)) ≤ shotRank (classifyShot (70 : ℝ)) :=
  ⟨by norm_num, (classifyShot_monotone 30 70 (by norm_num)).1⟩

/-! ## The prompt and the camera's rotation -/

/-- The bearing of a camera on the -X side of the entity is -π/2. -/
theorem atan2_neg_zero {y : ℝ} (hy : y < 0) : atan2 y 0 = -(Real.pi / 2) :=
  Complex.arg_eq_neg_pi_div_two_iff.mpr ⟨rfl, hy⟩

/-- C29: `generatePrompt` does not depend on the camera's rotation: two cameras with the same
position and fov give the same result (shot type, angle, focal length, entity descriptions and
full prompt) for every entity list.  The depth bucket is taken along the world Z axis: a volume
100 units away from the camera along X, at the camera's own Z, is in the foreground for every
rotation of the camera. -/
theorem generatePrompt_rotation_independent [CaseMapping] (position : Vec3 ℝ) (fov : ℝ)
    (rotation₁ rotation₂ : Vec3 ℝ) (entities : List (Entity ℝ)) :
    generatePrompt ⟨position, rotation₁, fov⟩ entities =
      generatePrompt ⟨position, rotation₂, fov⟩ entities ∧
    (generatePrompt ⟨position, rotation₁, fov⟩ entities).shotType =
      (generatePrompt ⟨position, rotation₂, fov⟩ entities).shotType ∧
    (generatePrompt ⟨position, rotation₁, fov⟩ entities).angle =
      (generatePrompt ⟨position, rotation₂, fov⟩ entities).angle ∧
    (generatePrompt ⟨position, rotation₁, fov⟩ entities).focalLength =
      (generatePrompt ⟨position, rotation₂, fov⟩ entities).focalLength ∧
    (generatePrompt ⟨position, rotation₁, fov⟩ entities).entities =
      (generatePrompt ⟨position, rotation₂, fov⟩ entities).entities ∧
    (generatePrompt ⟨position, rotation₁, fov⟩ entities).full =
      (generatePrompt ⟨position, rotation₂, fov⟩ entities).full ∧
    (∀ entity : Entity ℝ,
      describeEntity ⟨position, rotation₁, fov⟩ entity =
        describeEntity ⟨position, rotation₂, fov⟩ entity) ∧
    describeEntity ⟨⟨0, 1.6, 0⟩, rotation₁, 50⟩
      { (addedVolume 1 0 : Entity ℝ) with position := ⟨100, 0.5, 0⟩ } =
        "In the foreground, object 1 profile view" := by
  refine ⟨rfl, rfl, rfl, rfl, rfl, rfl, fun _ => rfl, ?_⟩
  have hpi := Real.pi_pos
  have hb : atan2 (0 - 100) (0 - 0) = -(Real.pi / 2) := by
    rw [sub_zero]; exact atan2_neg_zero (by norm_num)
  have hd : angleDiff 0 ⟨0, 1.6, 0⟩ ⟨100, 0.5, 0⟩ = Real.pi / 2 := by
    simp only [angleDiff, toCameraAngle, hb]
    rw [sub_zero, abs_neg, abs_of_pos (by linarith), if_neg (by linarith)]
  have hf : describeFacing 0 ⟨0, 1.6, 0⟩ ⟨100, 0.5, 0⟩ = "profile view" := by
    simp only [describeFacing, hd]
    rw [if_neg (by linarith), if_neg (by linarith), if_neg (lt_irrefl _)]
  have hdepth : describeDepth (0 : ℝ) 0 = "foreground" := describeDepth_zero_zero
  have hl : toLowerCase (orDefault (some ("Object " ++ toString (0 + 1))) "object") =
      "object 1" := by
    rw [show orDefault (some ("Object " ++ toString (0 + 1))) "object" = "Object 1" by decide,
      toLowerCase_ascii _ (by decide)]
    decide
  have hz : orZero ((none : Option (Vec3 ℝ)).map Vec3.y) = 0 := rfl
  have ht : ¬ ("volume" = "human") := by decide
  simp only [describeEntity, addedVolume, hz, hdepth, hf, hl, if_neg ht]
  decide

/-! ## The keyboard controller -/

/-- Two arrays of three numbers are equal when their components are. -/
theorem vec3_eq_of_components {α : Type} (a b : Vec3 α) (hx : a.x = b.x) (hy : a.y = b.y)
    (hz : a.z = b.z) : a = b := by
  cases a
  cases b
  simp_all

/-- The speed multiplier is positive. -/
theorem speedMod_pos (altPressed : Bool) :
    (0 : ℝ) < (if altPressed then FINE_MODIFIER else 1) := by
  split_ifs
  · unfold FINE_MODIFIER; norm_num
  · norm_num

/-- The height a tick computes lies between the floor and the ceiling. -/
theorem computed_y_mem (keys : List String) (altPressed : Bool) (camera : Camera ℝ) :
    0.05 ≤ (useKeyboardControls.computed keys altPressed camera).1.y ∧
      (useKeyboardControls.computed keys altPressed camera).1.y ≤ 10 := by
  simp only [useKeyboardControls.computed]
  exact ⟨le_max_left _ _, max_le (by norm_num) (min_le_left _ _)⟩

/-- The roll a tick computes is the stored roll. -/
theorem computed_roll (keys : List String) (altPressed : Bool) (camera : Camera ℝ) :
    (useKeyboardControls.computed keys altPressed camera).2.z = camera.rotation.z :=
  rfl

/-- The pitch a tick computes stays in `[-π/2, π/2]` when the stored pitch is there. -/
theorem computed_pitch_mem (keys : List String) (altPressed : Bool) (camera : Camera ℝ)
    (hlo : -(Real.pi / 2) ≤ camera.rotation.x) (hhi : camera.rotation.x ≤ Real.pi / 2) :
    -(Real.pi / 2) ≤ (useKeyboardControls.computed keys altPressed camera).2.x ∧
      (useKeyboardControls.computed keys altPressed camera).2.x ≤ Real.pi / 2 := by
  have hpi := Real.pi_pos
  have hs : (0 : ℝ) < ROTATE_SPEED * (if altPressed then FINE_MODIFIER else 1) :=
    mul_pos (by unfold ROTATE_SPEED; norm_num) (speedMod_pos altPressed)
  have hneg : -Real.pi / 2 = -(Real.pi / 2) := by ring
  simp only [useKeyboardControls.computed, hneg]
  generalize ROTATE_SPEED * (if altPressed then FINE_MODIFIER else 1) = s at hs ⊢
  split_ifs
  · refine ⟨le_min (by linarith) ?_, min_le_left _ _⟩
    have := le_max_left (-(Real.pi / 2)) (camera.rotation.x - s)
    linarith
  · exact ⟨le_min (by linarith) (by linarith), min_le_left _ _⟩
  · exact ⟨le_max_left _ _, max_le (by linarith) (by linarith)⟩
  · exact ⟨hlo, hhi⟩

/-- A tick that does not run (no focus, or no key held) dispatches nothing. -/
theorem updateCamera_idle (controls : Controls) (camera : Camera ℝ)
    (h : controls.isActive = false ∨ controls.keysPressed = []) :
    useKeyboardControls.updateCamera controls camera = [] := by
  unfold useKeyboardControls.updateCamera
  rcases h with h | h <;> simp [h]

/-- A tick that does not run leaves the store as it is. -/
theorem tick_idle (now : Nat) (controls : Controls) (state : SceneState ℝ)
    (h : controls.isActive = false ∨ controls.keysPressed = []) :
    useKeyboardControls.tick now controls state = state := by
  unfold useKeyboardControls.tick
  rw [updateCamera_idle controls _ h]
  rfl

/-- The updates of a tick that runs: one for the position when it changed, then one for the
rotation when pitch or yaw changed. -/
theorem updateCamera_active (controls : Controls) (camera : Camera ℝ)
    (ha : controls.isActive = true) (hk : controls.keysPressed ≠ []) :
    useKeyboardControls.updateCamera controls camera =
      (if (useKeyboardControls.computed controls.keysPressed controls.altPressed camera).1.x ≠
            camera.position.x ∨
          (useKeyboardControls.computed controls.keysPressed controls.altPressed camera).1.y ≠
            camera.position.y ∨
          (useKeyboardControls.computed controls.keysPressed controls.altPressed camera).1.z ≠
            camera.position.z then
        [{ position := some
            (useKeyboardControls.computed controls.keysPressed controls.altPressed camera).1
           rotation := none
           fov := none }]
      else []) ++
      (if (useKeyboardControls.computed controls.keysPressed controls.altPressed camera).2.x ≠
            camera.rotation.x ∨
          (useKeyboardControls.computed controls.keysPressed controls.altPressed camera).2.y ≠
            camera.rotation.y then
        [{ position := none
           rotation := some
            (useKeyboardControls.computed controls.keysPressed controls.altPressed camera).2
           fov := none }]
      else []) := by
  unfold useKeyboardControls.updateCamera
  have h : (!controls.isActive || controls.keysPressed.length == 0) = false := by
    simp [ha, hk]
  rw [h]
  simp only [Bool.false_eq_true, if_false]

/-- After a tick that runs, the stored pose is the computed one: position and rotation are the
locals of the tick, the fov, the entities and the selection are untouched. -/
theorem tick_active (now : Nat) (controls : Controls) (state : SceneState ℝ)
    (ha : controls.isActive = true) (hk : controls.keysPressed ≠ []) :
    useKeyboardControls.tick now controls state =
      { state with
        directorCamera :=
          { position := (useKeyboardControls.computed controls.keysPressed controls.altPressed
              state.directorCamera).1
            rotation := (useKeyboardControls.computed controls.keysPressed controls.altPressed
              state.directorCamera).2
            fov := state.directorCamera.fov } } := by
  unfold useKeyboardControls.tick
  rw [updateCamera_active controls _ ha hk]
  obtain ⟨entities, selected, camera⟩ := state
  obtain ⟨position, rotation, fov⟩ := camera
  by_cases hp : (useKeyboardControls.computed controls.keysPressed controls.altPressed
        ⟨position, rotation, fov⟩).1.x ≠ position.x ∨
      (useKeyboardControls.computed controls.keysPressed controls.altPressed
        ⟨position, rotation, fov⟩).1.y ≠ position.y ∨
      (useKeyboardControls.computed controls.keysPressed controls.altPressed
        ⟨position, rotation, fov⟩).1.z ≠ position.z
  · by_cases hr : (useKeyboardControls.computed controls.keysPressed controls.altPressed
          ⟨position, rotation, fov⟩).2.x ≠ rotation.x ∨
        (useKeyboardControls.computed controls.keysPressed controls.altPressed
          ⟨position, rotation, fov⟩).2.y ≠ rotation.y
    · rw [if_pos hp, if_pos hr]
      rfl
    · have hrot : (useKeyboardControls.computed controls.keysPressed controls.altPressed
          ⟨position, rotation, fov⟩).2 = rotation := by
        simp only [not_or, not_not] at hr
        exact vec3_eq_of_components _ _ hr.1 hr.2 rfl
      rw [if_pos hp, if_neg hr, hrot]
      rfl
  · have hpos : (useKeyboardControls.computed controls.keysPressed controls.altPressed
        ⟨position, rotation, fov⟩).1 = position := by
      simp only [not_or, not_not] at hp
      exact vec3_eq_of_components _ _ hp.1 hp.2.1 hp.2.2
    by_cases hr : (useKeyboardControls.computed controls.keysPressed controls.altPressed
          ⟨position, rotation, fov⟩).2.x ≠ rotation.x ∨
        (useKeyboardControls.computed controls.keysPressed controls.altPressed
          ⟨position, rotation, fov⟩).2.y ≠ rotation.y
    · rw [if_neg hp, if_pos hr, hpos]
      rfl
    · have hrot : (useKeyboardControls.computed controls.keysPressed controls.altPressed
          ⟨position, rotation, fov⟩).2 = rotation := by
        simp only [not_or, not_not] at hr
        exact vec3_eq_of_components _ _ hr.1 hr.2 rfl
      rw [if_neg hp, if_neg hr, hpos, hrot]
      rfl

/-- The stored pose after any tick: the computed one when the tick runs, the old one when it
does not. -/
theorem tick_camera (now : Nat) (controls : Controls) (state : SceneState ℝ) :
    (useKeyboardControls.tick now controls state).directorCamera =
      if controls.isActive = true ∧ controls.keysPressed ≠ [] then
        { position := (useKeyboardControls.computed controls.keysPressed controls.altPressed
            state.directorCamera).1
          rotation := (useKeyboardControls.computed controls.keysPressed controls.altPressed
            state.directorCamera).2
          fov := state.directorCamera.fov }
      else state.directorCamera := by
  by_cases h : controls.isActive = true ∧ controls.keysPressed ≠ []
  · rw [if_pos h, tick_active now controls state h.1 h.2]
  · rw [if_neg h, tick_idle now controls state]
    by_cases ha : controls.isActive = true
    · exact Or.inr (by_contra fun hk => h ⟨ha, hk⟩)
    · exact Or.inl (by simpa using ha)

/-- C22: every tick of the camera controller preserves the pose invariant: whatever keys are
held, with or without the fine modifier, focused or not, if before the tick fov is in
[15, 120], pitch is in [-π/2, π/2] and position y is in [0.05, 10], the same bounds hold for the
pose stored after the tick; the tick changes neither fov nor roll. -/
theorem tick_preserves_invariant (now : Nat) (controls : Controls) (state : SceneState ℝ)
    (hfov : 15 ≤ state.directorCamera.fov ∧ state.directorCamera.fov ≤ 120)
    (hpitch : -(Real.pi / 2) ≤ state.directorCamera.rotation.x ∧
      state.directorCamera.rotation.x ≤ Real.pi / 2)
    (hy : 0.05 ≤ state.directorCamera.position.y ∧ state.directorCamera.position.y ≤ 10) :
    (15 ≤ (useKeyboardControls.tick now controls state).directorCamera.fov ∧
      (useKeyboardControls.tick now controls state).directorCamera.fov ≤ 120) ∧
    (-(Real.pi / 2) ≤ (useKeyboardControls.tick now controls state).directorCamera.rotation.x ∧
      (useKeyboardControls.tick now controls state).directorCamera.rotation.x ≤ Real.pi / 2) ∧
    (0.05 ≤ (useKeyboardControls.tick now controls state).directorCamera.position.y ∧
      (useKeyboardControls.tick now controls state).directorCamera.position.y ≤ 10) ∧
    (useKeyboardControls.tick now controls state).directorCamera.fov =
      state.directorCamera.fov ∧
    (useKeyboardControls.tick now controls state).directorCamera.rotation.z =
      state.directorCamera.rotation.z := by
  rw [tick_camera]
  split_ifs with h
  · exact ⟨hfov, computed_pitch_mem _ _ _ hpitch.1 hpitch.2, computed_y_mem _ _ _, rfl, rfl⟩
  · exact ⟨hfov, hpitch, hy, rfl, rfl⟩

/-- C22 (instance): the initial pose satisfies the invariant, and the theorem applies to a
focused tick with the forward and the up-arrow keys held. -/
theorem tick_preserves_invariant_witness :
    ((15 : ℝ) ≤ (initialState : SceneState ℝ).directorCamera.fov ∧
      (initialState : SceneState ℝ).directorCamera.fov ≤ 120) ∧
    (-(Real.pi / 2) ≤ (initialState : SceneState ℝ).directorCamera.rotation.x ∧
      (initialState : SceneState ℝ).directorCamera.rotation.x ≤ Real.pi / 2) ∧
    ((0.05 : ℝ) ≤ (initialState : SceneState ℝ).directorCamera.position.y ∧
      (initialState : SceneState ℝ).directorCamera.position.y ≤ 10) ∧
    (-(Real.pi / 2) ≤ (useKeyboardControls.tick 0 ⟨true, ["w", "arrowup"], false⟩
        (initialState : SceneState ℝ)).directorCamera.rotation.x ∧
      (useKeyboardControls.tick 0 ⟨true, ["w", "arrowup"], false⟩
        (initialState : SceneState ℝ)).directorCamera.rotation.x ≤ Real.pi / 2) :=
  have hpi := Real.pi_pos
  have h1 : (15 : ℝ) ≤ (initialState : SceneState ℝ).directorCamera.fov ∧
      (initialState : SceneState ℝ).directorCamera.fov ≤ 120 := by
    simp only [initialState]; norm_num
  have h2 : -(Real.pi / 2) ≤ (initialState : SceneState ℝ).directorCamera.rotation.x ∧
      (initialState : SceneState ℝ).directorCamera.rotation.x ≤ Real.pi / 2 := by
    simp only [initialState]; constructor <;> linarith
  have h3 : (0.05 : ℝ) ≤ (initialState : SceneState ℝ).directorCamera.position.y ∧
      (initialState : SceneState ℝ).directorCamera.position.y ≤ 10 := by
    simp only [initialState]; norm_num
  ⟨h1, h2, h3,
    (tick_preserves_invariant 0 ⟨true, ["w", "arrowup"], false⟩ initialState h1 h2 h3).2.1⟩

/-- C23 (as amended): for every starting pose whose pitch lies in [-π/2, π/2] and every set of
held keys, after a tick the camera's pitch lies in [-π/2, π/2]. -/
theorem tick_pitch_mem (now : Nat) (controls : Controls) (state : SceneState ℝ)
    (hlo : -(Real.pi / 2) ≤ state.directorCamera.rotation.x)
    (hhi : state.directorCamera.rotation.x ≤ Real.pi / 2) :
    -(Real.pi / 2) ≤ (useKeyboardControls.tick now controls state).directorCamera.rotation.x ∧
      (useKeyboardControls.tick now controls state).directorCamera.rotation.x ≤ Real.pi / 2 := by
  rw [tick_camera]
  split_ifs with h
  · exact computed_pitch_mem _ _ _ hlo hhi
  · exact ⟨hlo, hhi⟩

/-- C23 (instance): the initial pitch 0 is in range, and the theorem applies to a focused tick
with the down-arrow key held. -/
theorem tick_pitch_mem_witness :
    -(Real.pi / 2) ≤ (initialState : SceneState ℝ).directorCamera.rotation.x ∧
    (initialState : SceneState ℝ).directorCamera.rotation.x ≤ Real.pi / 2 ∧
    -(Real.pi / 2) ≤ (useKeyboardControls.tick 0 ⟨true, ["arrowdown"], false⟩
      (initialState : SceneState ℝ)).directorCamera.rotation.x ∧
    (useKeyboardControls.tick 0 ⟨true, ["arrowdown"], false⟩
      (initialState : SceneState ℝ)).directorCamera.rotation.x ≤ Real.pi / 2 :=
  have hpi := Real.pi_pos
  have h1 : -(Real.pi / 2) ≤ (initialState : SceneState ℝ).directorCamera.rotation.x := by
    simp only [initialState]; linarith
  have h2 : (initialState : SceneState ℝ).directorCamera.rotation.x ≤ Real.pi / 2 := by
    simp only [initialState]; linarith
  ⟨h1, h2, tick_pitch_mem 0 ⟨true, ["arrowdown"], false⟩ initialState h1 h2⟩

/-- C24: for every starting pose, whatever its height, and every non-empty set of held keys,
after a tick that runs while the controller is focused the camera's vertical position lies in
[0.05, 10]. -/
theorem tick_height_mem (now : Nat) (controls : Controls) (state : SceneState ℝ)
    (ha : controls.isActive = true) (hk : controls.keysPressed ≠ []) :
    0.05 ≤ (useKeyboardControls.tick now controls state).directorCamera.position.y ∧
      (useKeyboardControls.tick now controls state).directorCamera.position.y ≤ 10 := by
  rw [tick_active now controls state ha hk]
  exact computed_y_mem _ _ _

/-- C24 (instance): a focused tick with one key held, on a camera that the position slider has
put at height 0. -/
theorem tick_height_mem_witness :
    (⟨true, ["x"], false⟩ : Controls).isActive = true ∧
    (⟨true, ["x"], false⟩ : Controls).keysPressed ≠ [] ∧
    (setPosition 0 (initialState : SceneState ℝ) ⟨0, 0, 5⟩).directorCamera.position.y = 0 ∧
    0.05 ≤ (useKeyboardControls.tick 1 ⟨true, ["x"], false⟩
      (setPosition 0 (initialState : SceneState ℝ) ⟨0, 0, 5⟩)).directorCamera.position.y ∧
    (useKeyboardControls.tick 1 ⟨true, ["x"], false⟩
      (setPosition 0 (initialState : SceneState ℝ) ⟨0, 0, 5⟩)).directorCamera.position.y ≤ 10 :=
  ⟨rfl, by simp, rfl,
    tick_height_mem 1 ⟨true, ["x"], false⟩ (setPosition 0 initialState ⟨0, 0, 5⟩) rfl (by simp)⟩

/-- C23 (the claim as stated fails): on a camera whose pitch the store holds at 2, a focused
tick with the forward key held leaves the pitch at 2, and one with the up-arrow key held moves
it to 1.98; both are above π/2. -/
theorem tick_pitch_not_clamped :
    (setRotation 0 (initialState : SceneState ℝ) ⟨2, 0, 0⟩).directorCamera.rotation.x = 2 ∧
    (useKeyboardControls.tick 1 ⟨true, ["w"], false⟩
      (setRotation 0 (initialState : SceneState ℝ) ⟨2, 0, 0⟩)).directorCamera.rotation.x = 2 ∧
    (useKeyboardControls.tick 1 ⟨true, ["arrowup"], false⟩
      (setRotation 0 (initialState : SceneState ℝ) ⟨2, 0, 0⟩)).directorCamera.rotation.x =
        1.98 ∧
    ¬ ((2 : ℝ) ≤ Real.pi / 2) ∧ ¬ ((1.98 : ℝ) ≤ Real.pi / 2) := by
  have hpi := Real.pi_pos
  have hlt := Real.pi_lt_d2
  refine ⟨rfl, ?_, ?_, ?_, ?_⟩
  · rw [tick_active _ _ _ rfl (by simp)]
    simp [useKeyboardControls.computed, setRotation, updateCamera, sceneReducer, mergeCamera]
  · rw [tick_active _ _ _ rfl (by simp)]
    have hmax : max (-Real.pi / 2) ((2 : ℝ) - ROTATE_SPEED * 1) = 1.98 := by
      rw [max_eq_right (by unfold ROTATE_SPEED; norm_num; linarith)]
      unfold ROTATE_SPEED
      norm_num
    simp [useKeyboardControls.computed, setRotation, updateCamera, sceneReducer, mergeCamera]
    simpa using hmax
  · norm_num at hlt ⊢
    linarith
  · norm_num at hlt ⊢
    linarith

/-- C25: in a focused tick with only the forward key held the horizontal displacement
`(dx, dz)` is `s·(-sin y, -cos y)` for the yaw `y`, with only the strafe-right key held it is
`s·(cos y, -sin y)`, and the back and strafe-left keys give the negations; `s` is 0.1 without
the fine modifier and 0.1·0.1 with it.  The forward and right displacements are orthogonal and
both have length `s`.  The ascend and descend keys change only the height, by 0.1 times the same
multiplier before the clamp to [0.05, 10], whatever the yaw. -/
theorem tick_displacement (now : Nat) (altPressed : Bool) (state : SceneState ℝ) :
    ((useKeyboardControls.tick now ⟨true, ["w"], altPressed⟩ state).directorCamera.position.x -
        state.directorCamera.position.x =
      (if altPressed then 0.1 * 0.1 else 0.1) * -Real.sin state.directorCamera.rotation.y ∧
     (useKeyboardControls.tick now ⟨true, ["w"], altPressed⟩ state).directorCamera.position.z -
        state.directorCamera.position.z =
      (if altPressed then 0.1 * 0.1 else 0.1) * -Real.cos state.directorCamera.rotation.y) ∧
    ((useKeyboardControls.tick now ⟨true, ["d"], altPressed⟩ state).directorCamera.position.x -
        state.directorCamera.position.x =
      (if altPressed then 0.1 * 0.1 else 0.1) * Real.cos state.directorCamera.rotation.y ∧
     (useKeyboardControls.tick now ⟨true, ["d"], altPressed⟩ state).directorCamera.position.z -
        state.directorCamera.position.z =
      (if altPressed then 0.1 * 0.1 else 0.1) * -Real.sin state.directorCamera.rotation.y) ∧
    ((useKeyboardControls.tick now ⟨true, ["s"], altPressed⟩ state).directorCamera.position.x -
        state.directorCamera.position.x =
      -((if altPressed then 0.1 * 0.1 else 0.1) * -Real.sin state.directorCamera.rotation.y) ∧
     (useKeyboardControls.tick now ⟨true, ["s"], altPressed⟩ state).directorCamera.position.z -
        state.directorCamera.position.z =
      -((if altPressed then 0.1 * 0.1 else 0.1) * -Real.cos state.directorCamera.rotation.y)) ∧
    ((useKeyboardControls.tick now ⟨true, ["a"], altPressed⟩ state).directorCamera.position.x -
        state.directorCamera.position.x =
      -((if altPressed then 0.1 * 0.1 else 0.1) * Real.cos state.directorCamera.rotation.y) ∧
     (useKeyboardControls.tick now ⟨true, ["a"], altPressed⟩ state).directorCamera.position.z -
        state.directorCamera.position.z =
      -((if altPressed then 0.1 * 0.1 else 0.1) * -Real.sin state.directorCamera.rotation.y)) ∧
    (∀ s y : ℝ,
      (s * -Real.sin y) * (s * Real.cos y) + (s * -Real.cos y) * (s * -Real.sin y) = 0 ∧
      (s * -Real.sin y) ^ 2 + (s * -Real.cos y) ^ 2 = s ^ 2 ∧
      (s * Real.cos y) ^ 2 + (s * -Real.sin y) ^ 2 = s ^ 2) ∧
    (useKeyboardControls.tick now ⟨true, ["e"], altPressed⟩ state).directorCamera.position =
      ⟨state.directorCamera.position.x,
        max 0.05 (min 10
          (state.directorCamera.position.y + (if altPressed then 0.1 * 0.1 else 0.1))),
        state.directorCamera.position.z⟩ ∧
    (useKeyboardControls.tick now ⟨true, ["q"], altPressed⟩ state).directorCamera.position =
      ⟨state.directorCamera.position.x,
        max 0.05 (min 10
          (state.directorCamera.position.y - (if altPressed then 0.1 * 0.1 else 0.1))),
        state.directorCamera.position.z⟩ := by
  have hw := tick_active now ⟨true, ["w"], altPressed⟩ state rfl (by simp)
  have hd := tick_active now ⟨true, ["d"], altPressed⟩ state rfl (by simp)
  have hs := tick_active now ⟨true, ["s"], altPressed⟩ state rfl (by simp)
  have ha := tick_active now ⟨true, ["a"], altPressed⟩ state rfl (by simp)
  have he := tick_active now ⟨true, ["e"], altPressed⟩ state rfl (by simp)
  have hq := tick_active now ⟨true, ["q"], altPressed⟩ state rfl (by simp)
  rw [hw, hd, hs, ha, he, hq]
  clear hw hd hs ha he hq
  have horth : ∀ s y : ℝ,
      (s * -Real.sin y) * (s * Real.cos y) + (s * -Real.cos y) * (s * -Real.sin y) = 0 ∧
      (s * -Real.sin y) ^ 2 + (s * -Real.cos y) ^ 2 = s ^ 2 ∧
      (s * Real.cos y) ^ 2 + (s * -Real.sin y) ^ 2 = s ^ 2 := by
    intro s y
    have h := Real.sin_sq_add_cos_sq y
    refine ⟨by ring, ?_, ?_⟩
    · calc (s * -Real.sin y) ^ 2 + (s * -Real.cos y) ^ 2
          = s ^ 2 * (Real.sin y ^ 2 + Real.cos y ^ 2) := by ring
        _ = s ^ 2 := by rw [h, mul_one]
    · calc (s * Real.cos y) ^ 2 + (s * -Real.sin y) ^ 2
          = s ^ 2 * (Real.sin y ^ 2 + Real.cos y ^ 2) := by ring
        _ = s ^ 2 := by rw [h, mul_one]
  refine ⟨⟨?_, ?_⟩, ⟨?_, ?_⟩, ⟨?_, ?_⟩, ⟨?_, ?_⟩, horth, ?_, ?_⟩
  all_goals
    (cases altPressed <;>
      simp [useKeyboardControls.computed, MOVE_SPEED, HEIGHT_SPEED, FINE_MODIFIER] <;>
      ring_nf)

/-- A tick that dispatches nothing leaves the store as it is. -/
theorem tick_of_updates_nil (now : Nat) (controls : Controls) (state : SceneState ℝ)
    (h : useKeyboardControls.updateCamera controls state.directorCamera = []) :
    useKeyboardControls.tick now controls state = state := by
  unfold useKeyboardControls.tick
  rw [h]
  rfl

/-- The updates of a tick that runs, by which of position and rotation changed. -/
theorem updateCamera_cases (controls : Controls) (camera : Camera ℝ)
    (ha : controls.isActive = true) (hk : controls.keysPressed ≠ []) :
    useKeyboardControls.updateCamera controls camera =
      (if useKeyboardControls.positionChanged controls camera then
        [{ position := some
            (useKeyboardControls.computed controls.keysPressed controls.altPressed camera).1
           rotation := none
           fov := none }]
      else []) ++
      (if useKeyboardControls.rotationChanged controls camera then
        [{ position := none
           rotation := some
            (useKeyboardControls.computed controls.keysPressed controls.altPressed camera).2
           fov := none }]
      else []) :=
  updateCamera_active controls camera ha hk

/-- The updates the initial camera gets from a focused tick with the forward and the
left-arrow keys held, and with the forward key alone. -/
theorem updateCamera_initial_forward_left :
    useKeyboardControls.updateCamera ⟨true, ["w", "arrowleft"], false⟩
        (initialState : SceneState ℝ).directorCamera =
      [{ position := some ⟨0, 1.6, 4.9⟩, rotation := none, fov := none },
        { position := none, rotation := some ⟨0, 0.02, 0⟩, fov := none }] ∧
    useKeyboardControls.updateCamera ⟨true, ["w"], false⟩
        (initialState : SceneState ℝ).directorCamera =
      [{ position := some ⟨0, 1.6, 4.9⟩, rotation := none, fov := none }] := by
  have h1 : useKeyboardControls.computed ["w", "arrowleft"] false
      (initialState : SceneState ℝ).directorCamera = (⟨0, 1.6, 4.9⟩, ⟨0, 0.02, 0⟩) := by
    simp [useKeyboardControls.computed, initialState, MOVE_SPEED, ROTATE_SPEED, HEIGHT_SPEED]
    norm_num
  have h2 : useKeyboardControls.computed ["w"] false
      (initialState : SceneState ℝ).directorCamera = (⟨0, 1.6, 4.9⟩, ⟨0, 0, 0⟩) := by
    simp [useKeyboardControls.computed, initialState, MOVE_SPEED, ROTATE_SPEED, HEIGHT_SPEED]
    norm_num
  constructor
  · rw [updateCamera_active _ _ rfl (by simp)]
    simp only [h1]
    simp [initialState]
    norm_num
  · rw [updateCamera_active _ _ rfl (by simp)]
    simp only [h2]
    simp [initialState]
    norm_num

/-- C26 (the claim as stated fails): from the initial pose, a focused tick with the forward and
the left-arrow keys held changes both position and rotation and issues two camera updates, the
first carrying only the position and the second only the rotation; with the forward key alone it
issues one update, which carries no rotation. -/
theorem tick_issues_two_updates :
    useKeyboardControls.positionChanged ⟨true, ["w", "arrowleft"], false⟩
      (initialState : SceneState ℝ).directorCamera ∧
    useKeyboardControls.rotationChanged ⟨true, ["w", "arrowleft"], false⟩
      (initialState : SceneState ℝ).directorCamera ∧
    (useKeyboardControls.updateCamera ⟨true, ["w", "arrowleft"], false⟩
      (initialState : SceneState ℝ).directorCamera).length = 2 ∧
    useKeyboardControls.updateCamera ⟨true, ["w", "arrowleft"], false⟩
        (initialState : SceneState ℝ).directorCamera =
      [{ position := some ⟨0, 1.6, 4.9⟩, rotation := none, fov := none },
        { position := none, rotation := some ⟨0, 0.02, 0⟩, fov := none }] ∧
    useKeyboardControls.updateCamera ⟨true, ["w"], false⟩
        (initialState : SceneState ℝ).directorCamera =
      [{ position := some ⟨0, 1.6, 4.9⟩, rotation := none, fov := none }] := by
  obtain ⟨h2, h1⟩ := updateCamera_initial_forward_left
  refine ⟨?_, ?_, by rw [h2]; rfl, h2, h1⟩
  · unfold useKeyboardControls.positionChanged
    simp [useKeyboardControls.computed, initialState, MOVE_SPEED]
    norm_num
  · unfold useKeyboardControls.rotationChanged
    simp [useKeyboardControls.computed, initialState, ROTATE_SPEED]
    norm_num

/-- C26 (as amended): in a tick that runs, a changed position makes the tick issue one camera
update that carries the new position and nothing else, and a changed pitch or yaw makes it
issue one that carries the new rotation and nothing else, in this order; so the tick issues two
updates when both changed, one when only one of them changed and none when neither did.  Once
the updates are applied the stored pose has the computed position and the computed rotation. -/
theorem tick_updates (now : Nat) (controls : Controls) (state : SceneState ℝ)
    (ha : controls.isActive = true) (hk : controls.keysPressed ≠ []) :
    (useKeyboardControls.positionChanged controls state.directorCamera →
      useKeyboardControls.rotationChanged controls state.directorCamera →
      useKeyboardControls.updateCamera controls state.directorCamera =
        [{ position := some (useKeyboardControls.computed controls.keysPressed
              controls.altPressed state.directorCamera).1
           rotation := none
           fov := none },
         { position := none
           rotation := some (useKeyboardControls.computed controls.keysPressed
              controls.altPressed state.directorCamera).2
           fov := none }]) ∧
    (useKeyboardControls.positionChanged controls state.directorCamera →
      ¬ useKeyboardControls.rotationChanged controls state.directorCamera →
      useKeyboardControls.updateCamera controls state.directorCamera =
        [{ position := some (useKeyboardControls.computed controls.keysPressed
              controls.altPressed state.directorCamera).1
           rotation := none
           fov := none }]) ∧
    (¬ useKeyboardControls.positionChanged controls state.directorCamera →
      useKeyboardControls.rotationChanged controls state.directorCamera →
      useKeyboardControls.updateCamera controls state.directorCamera =
        [{ position := none
           rotation := some (useKeyboardControls.computed controls.keysPressed
              controls.altPressed state.directorCamera).2
           fov := none }]) ∧
    (¬ useKeyboardControls.positionChanged controls state.directorCamera →
      ¬ useKeyboardControls.rotationChanged controls state.directorCamera →
      useKeyboardControls.updateCamera controls state.directorCamera = []) ∧
    (useKeyboardControls.tick now controls state).directorCamera.position =
      (useKeyboardControls.computed controls.keysPressed controls.altPressed
        state.directorCamera).1 ∧
    (useKeyboardControls.tick now controls state).directorCamera.rotation =
      (useKeyboardControls.computed controls.keysPressed controls.altPressed
        state.directorCamera).2 := by
  have hcases := updateCamera_cases controls state.directorCamera ha hk
  have htick := tick_active now controls state ha hk
  refine ⟨?_, ?_, ?_, ?_, by rw [htick], by rw [htick]⟩
  · intro hp hr
    rw [hcases, if_pos hp, if_pos hr]
    rfl
  · intro hp hr
    rw [hcases, if_pos hp, if_neg hr]
    rfl
  · intro hp hr
    rw [hcases, if_neg hp, if_pos hr]
    rfl
  · intro hp hr
    rw [hcases, if_neg hp, if_neg hr]
    rfl

/-- C26 (instance): a focused tick with the forward and the left-arrow keys held, on the
initial state. -/
theorem tick_updates_witness :
    (⟨true, ["w", "arrowleft"], false⟩ : Controls).isActive = true ∧
    (⟨true, ["w", "arrowleft"], false⟩ : Controls).keysPressed ≠ [] ∧
    (useKeyboardControls.tick 0 ⟨true, ["w", "arrowleft"], false⟩
      (initialState : SceneState ℝ)).directorCamera.position =
      (useKeyboardControls.computed ["w", "arrowleft"] false
        (initialState : SceneState ℝ).directorCamera).1 ∧
    (useKeyboardControls.tick 0 ⟨true, ["w", "arrowleft"], false⟩
      (initialState : SceneState ℝ)).directorCamera.rotation =
      (useKeyboardControls.computed ["w", "arrowleft"] false
        (initialState : SceneState ℝ).directorCamera).2 :=
  ⟨rfl, by simp,
    (tick_updates 0 ⟨true, ["w", "arrowleft"], false⟩ initialState rfl (by simp)).2.2.2.2⟩

/-- C27: a tick dispatches no camera update and leaves the store unchanged whenever the
controller is not focused, or no key is held, or the computed position and rotation equal the
stored ones.  With the stored height in [0.05, 10], the last is the case when only keys that are
not control keys are held and when only the forward and back keys are held together; it is also
the case when only the descend key is held at height 0.05. -/
theorem tick_no_update (now : Nat) (controls : Controls) (state : SceneState ℝ) :
    (controls.isActive = false →
      useKeyboardControls.updateCamera controls state.directorCamera = [] ∧
        useKeyboardControls.tick now controls state = state) ∧
    (controls.keysPressed = [] →
      useKeyboardControls.updateCamera controls state.directorCamera = [] ∧
        useKeyboardControls.tick now controls state = state) ∧
    (¬ useKeyboardControls.positionChanged controls state.directorCamera →
      ¬ useKeyboardControls.rotationChanged controls state.directorCamera →
      useKeyboardControls.updateCamera controls state.directorCamera = [] ∧
        useKeyboardControls.tick now controls state = state) ∧
    ((∀ key ∈ controls.keysPressed, key ∉ controlKeys) →
      0.05 ≤ state.directorCamera.position.y → state.directorCamera.position.y ≤ 10 →
      useKeyboardControls.updateCamera controls state.directorCamera = [] ∧
        useKeyboardControls.tick now controls state = state) ∧
    (0.05 ≤ state.directorCamera.position.y → state.directorCamera.position.y ≤ 10 →
      useKeyboardControls.updateCamera ⟨true, ["w", "s"], controls.altPressed⟩
          state.directorCamera = [] ∧
        useKeyboardControls.tick now ⟨true, ["w", "s"], controls.altPressed⟩ state = state) ∧
    (state.directorCamera.position.y = 0.05 →
      useKeyboardControls.updateCamera ⟨true, ["q"], controls.altPressed⟩
          state.directorCamera = [] ∧
        useKeyboardControls.tick now ⟨true, ["q"], controls.altPressed⟩ state = state) := by
  have hnil : ∀ c : Controls,
      ¬ useKeyboardControls.positionChanged c state.directorCamera →
      ¬ useKeyboardControls.rotationChanged c state.directorCamera →
      useKeyboardControls.updateCamera c state.directorCamera = [] := by
    intro c hp hr
    by_cases h : c.isActive = true ∧ c.keysPressed ≠ []
    · rw [updateCamera_cases c _ h.1 h.2, if_neg hp, if_neg hr]
      rfl
    · apply updateCamera_idle
      by_cases hact : c.isActive = true
      · exact Or.inr (by_contra fun hk => h ⟨hact, hk⟩)
      · exact Or.inl (by simpa using hact)
  have hboth : ∀ c : Controls,
      ¬ useKeyboardControls.positionChanged c state.directorCamera →
      ¬ useKeyboardControls.rotationChanged c state.directorCamera →
      useKeyboardControls.updateCamera c state.directorCamera = [] ∧
        useKeyboardControls.tick now c state = state :=
    fun c hp hr => ⟨hnil c hp hr, tick_of_updates_nil now c state (hnil c hp hr)⟩
  refine ⟨?_, ?_, hboth controls, ?_, ?_, ?_⟩
  · intro h
    exact ⟨updateCamera_idle _ _ (Or.inl h), tick_idle now _ _ (Or.inl h)⟩
  · intro h
    exact ⟨updateCamera_idle _ _ (Or.inr h), tick_idle now _ _ (Or.inr h)⟩
  · intro hkeys hlo hhi
    have hmem : ∀ key ∈ controlKeys, key ∉ controls.keysPressed :=
      fun key hk hin => hkeys key hin hk
    have hw := hmem "w" (by decide)
    have hs := hmem "s" (by decide)
    have ha := hmem "a" (by decide)
    have hd := hmem "d" (by decide)
    have hq := hmem "q" (by decide)
    have he := hmem "e" (by decide)
    have hup := hmem "arrowup" (by decide)
    have hdown := hmem "arrowdown" (by decide)
    have hleft := hmem "arrowleft" (by decide)
    have hright := hmem "arrowright" (by decide)
    apply hboth
    · unfold useKeyboardControls.positionChanged
      simp only [useKeyboardControls.computed, hw, hs, ha, hd, hq, he, if_false,
        min_eq_right hhi, max_eq_right hlo]
      simp
    · unfold useKeyboardControls.rotationChanged
      simp only [useKeyboardControls.computed, hup, hdown, hleft, hright, if_false]
      simp
  · intro hlo hhi
    apply hboth
    · unfold useKeyboardControls.positionChanged
      simp [useKeyboardControls.computed, min_eq_right hhi, max_eq_right hlo]
    · unfold useKeyboardControls.rotationChanged
      simp [useKeyboardControls.computed]
  · intro hy
    have hspeed : (0 : ℝ) < HEIGHT_SPEED * (if controls.altPressed then FINE_MODIFIER else 1) :=
      mul_pos (by unfold HEIGHT_SPEED; norm_num) (speedMod_pos _)
    apply hboth
    · unfold useKeyboardControls.positionChanged
      have hmin : min (10 : ℝ) (state.directorCamera.position.y -
          HEIGHT_SPEED * (if controls.altPressed then FINE_MODIFIER else 1)) ≤ 0.05 := by
        refine le_trans (min_le_right _ _) ?_
        rw [hy]
        linarith
      simp [useKeyboardControls.computed, max_eq_left hmin, hy]
      intro _
      split_ifs <;> simp only [HEIGHT_SPEED, FINE_MODIFIER] <;> norm_num
    · unfold useKeyboardControls.rotationChanged
      simp [useKeyboardControls.computed]

/-! ## The range of the focal length -/

/-- The tangent of 7.5 degrees lies strictly between 36/275 and 12/91. -/
theorem tan_fov15_bounds :
    (36 : ℝ) / 275 < Real.tan (15 * Real.pi / 360) ∧ Real.tan (15 * Real.pi / 360) < 12 / 91 := by
  have hpl := Real.pi_gt_d6
  have hpu := Real.pi_lt_d6
  obtain ⟨t, ht⟩ : ∃ t : ℝ, t = 15 * Real.pi / 360 := ⟨_, rfl⟩
  rw [← ht]
  have ht1 : (0.130899 : ℝ) < t := by rw [ht]; norm_num at hpl ⊢; linarith
  have ht2 : t < (0.1309 : ℝ) := by rw [ht]; norm_num at hpu ⊢; linarith
  have ht0 : (0 : ℝ) < t := by norm_num at ht1; linarith
  have habs : |t| ≤ 1 := by rw [abs_of_pos ht0]; norm_num at ht2; linarith
  have hs := Real.sin_bound habs
  have hc := Real.cos_bound habs
  rw [abs_le, abs_of_pos ht0] at hs hc
  have h2l : (0.130899 : ℝ) ^ 2 ≤ t ^ 2 := by gcongr
  have h2u : t ^ 2 ≤ (0.1309 : ℝ) ^ 2 := by gcongr
  have h3l : (0.130899 : ℝ) ^ 3 ≤ t ^ 3 := by gcongr
  have h3u : t ^ 3 ≤ (0.1309 : ℝ) ^ 3 := by gcongr
  have h4u : t ^ 4 ≤ (0.1309 : ℝ) ^ 4 := by gcongr
  have h4l : (0 : ℝ) ≤ t ^ 4 := by positivity
  have hsl : (0.1304 : ℝ) < Real.sin t := by norm_num at *; linarith
  have hsu : Real.sin t < (0.13055 : ℝ) := by norm_num at *; linarith
  have hcl : (0.9914 : ℝ) < Real.cos t := by norm_num at *; linarith
  have hcu : Real.cos t < (0.9915 : ℝ) := by norm_num at *; linarith
  have hcos : (0 : ℝ) < Real.cos t := lt_trans (by norm_num) hcl
  rw [Real.tan_eq_sin_div_cos]
  constructor
  · rw [div_lt_div_iff₀ (by norm_num) hcos]
    norm_num at hsl hcu ⊢
    linarith
  · rw [div_lt_div_iff₀ hcos (by norm_num)]
    norm_num at hsu hcl ⊢
    linarith

/-- The focal length at the narrowest field of view of the slider. -/
theorem fovToFocalLength_fifteen : fovToFocalLength 15 defaultSensorSize = 137 := by
  obtain ⟨hl, hu⟩ := tan_fov15_bounds
  have hpos : (0 : ℝ) < Real.tan (15 * Real.pi / 360) := lt_trans (by norm_num) hl
  unfold fovToFocalLength mathRound defaultSensorSize
  rw [Int.floor_eq_iff]
  constructor
  · have h : (136.5 : ℝ) ≤ 36 / 2 / Real.tan (15 * Real.pi / 360) := by
      rw [le_div_iff₀ hpos]
      norm_num at hu ⊢
      linarith
    push_cast
    norm_num at h ⊢
    linarith
  · have h : 36 / 2 / Real.tan (15 * Real.pi / 360) < (137.5 : ℝ) := by
      rw [div_lt_iff₀ hpos]
      norm_num at hl ⊢
      linarith
    push_cast
    norm_num at h ⊢
    linarith

/-- The focal length at the widest field of view of the slider. -/
theorem fovToFocalLength_hundred_twenty : fovToFocalLength 120 defaultSensorSize = 10 := by
  have h120 : (120 : ℝ) * Real.pi / 360 = Real.pi / 3 := by ring
  have hl : (1.72 : ℝ) < √3 := Real.lt_sqrt_of_sq_lt (by norm_num)
  have hu : √3 < (1.74 : ℝ) := (Real.sqrt_lt' (by norm_num)).mpr (by norm_num)
  have hpos : (0 : ℝ) < √3 := lt_trans (by norm_num) hl
  unfold fovToFocalLength mathRound defaultSensorSize
  rw [h120, Real.tan_pi_div_three, Int.floor_eq_iff]
  constructor
  · have h : (9.5 : ℝ) ≤ 36 / 2 / √3 := by
      rw [le_div_iff₀ hpos]
      norm_num at hu ⊢
      linarith
    push_cast
    norm_num at h ⊢
    linarith
  · have h : 36 / 2 / √3 < (10.5 : ℝ) := by
      rw [div_lt_iff₀ hpos]
      norm_num at hl ⊢
      linarith
    push_cast
    norm_num at h ⊢
    linarith

/-- On fields of view strictly between 0 and 180 degrees a wider field of view never gives a
longer focal length. -/
theorem fovToFocalLength_antitone (fov₁ fov₂ sensorSize : ℝ) (hs : 0 ≤ sensorSize)
    (h0 : 0 < fov₁) (h12 : fov₁ ≤ fov₂) (h180 : fov₂ < 180) :
    fovToFocalLength fov₂ sensorSize ≤ fovToFocalLength fov₁ sensorSize := by
  have hpi := Real.pi_pos
  have ha0 : 0 < fov₁ * Real.pi / 360 := by positivity
  have hab : fov₁ * Real.pi / 360 ≤ fov₂ * Real.pi / 360 := by
    have := mul_le_mul_of_nonneg_right h12 hpi.le
    linarith
  have hb2 : fov₂ * Real.pi / 360 < Real.pi / 2 := by
    have := mul_lt_mul_of_pos_right h180 hpi
    linarith
  have hta : 0 < Real.tan (fov₁ * Real.pi / 360) :=
    Real.tan_pos_of_pos_of_lt_pi_div_two ha0 (lt_of_le_of_lt hab hb2)
  have htan : Real.tan (fov₁ * Real.pi / 360) ≤ Real.tan (fov₂ * Real.pi / 360) :=
    Real.strictMonoOn_tan.monotoneOn ⟨by linarith, lt_of_le_of_lt hab hb2⟩
      ⟨by linarith, hb2⟩ hab
  unfold fovToFocalLength mathRound
  apply Int.floor_le_floor
  have hdiv : sensorSize / 2 / Real.tan (fov₂ * Real.pi / 360) ≤
      sensorSize / 2 / Real.tan (fov₁ * Real.pi / 360) :=
    div_le_div_of_nonneg_left (by linarith) hta htan
  linarith

/-- C30: for fields of view in [15, 120] and the default 36 sensor, `fovToFocalLength` is a
positive integer between 10 and 137, it is 137 at fov 15 and 10 at fov 120, and it is
non-increasing in the field of view. -/
theorem fovToFocalLength_range (fov₁ fov₂ : ℝ) (h1 : 15 ≤ fov₁) (h12 : fov₁ ≤ fov₂)
    (h2 : fov₂ ≤ 120) :
    fovToFocalLength fov₂ defaultSensorSize ≤ fovToFocalLength fov₁ defaultSensorSize ∧
    (10 ≤ fovToFocalLength fov₁ defaultSensorSize ∧
      fovToFocalLength fov₁ defaultSensorSize ≤ 137) ∧
    (10 ≤ fovToFocalLength fov₂ defaultSensorSize ∧
      fovToFocalLength fov₂ defaultSensorSize ≤ 137) ∧
    0 < fovToFocalLength fov₁ defaultSensorSize ∧
    defaultSensorSize = 36 ∧
    fovToFocalLength 15 defaultSensorSize = 137 ∧
    fovToFocalLength 120 defaultSensorSize = 10 := by
  have hs : (0 : ℝ) ≤ defaultSensorSize := by unfold defaultSensorSize; norm_num
  have hmono := fovToFocalLength_antitone fov₁ fov₂ defaultSensorSize hs (by linarith) h12
    (by linarith)
  have hlo₁ := fovToFocalLength_antitone fov₁ 120 defaultSensorSize hs (by linarith)
    (by linarith) (by norm_num)
  have hhi₁ := fovToFocalLength_antitone 15 fov₁ defaultSensorSize hs (by norm_num) h1
    (by linarith)
  have hlo₂ := fovToFocalLength_antitone fov₂ 120 defaultSensorSize hs (by linarith) h2
    (by norm_num)
  have hhi₂ := fovToFocalLength_antitone 15 fov₂ defaultSensorSize hs (by norm_num)
    (by linarith) (by linarith)
  rw [fovToFocalLength_hundred_twenty] at hlo₁ hlo₂
  rw [fovToFocalLength_fifteen] at hhi₁ hhi₂
  exact ⟨hmono, ⟨hlo₁, hhi₁⟩, ⟨hlo₂, hhi₂⟩, by omega, rfl, fovToFocalLength_fifteen,
    fovToFocalLength_hundred_twenty⟩

/-- C30 (instance): 15 ≤ 50 ≤ 90 ≤ 120, and the theorem applies: the focal length at fov 90 is
at most the one at fov 50. -/
theorem fovToFocalLength_range_witness :
    (15 : ℝ) ≤ 50 ∧ (50 : ℝ) ≤ 90 ∧ (90 : ℝ) ≤ 120 ∧
    fovToFocalLength 90 defaultSensorSize ≤ fovToFocalLength 50 defaultSensorSize :=
  ⟨by norm_num, by norm_num, by norm_num,
    (fovToFocalLength_range 50 90 (by norm_num) (by norm_num) (by norm_num)).1⟩

end ShotComposer
